import Mathlib

/-!
Shallow embedding of the FAT32 driver in src/drivers/fat32.c.

Strings are modelled as lists of byte values (`Bytes`), sectors as total
functions from byte index to byte value, and the block device as a total
function from LBA to sector.  Machine integers are `Nat`; an explicit
`% U32` is applied exactly where the C `uint32_t` arithmetic can wrap
(the subtraction in `cluster_to_sector`, the `cluster * 4` FAT offset and
the geometry subtractions in mount).  All block reads succeed while the
card is present, mirroring the external block device described in the
spec; functions that can write thread the filesystem state explicitly,
and loops that the C code does not structurally bound take a fuel
argument and return `none` on exhaustion.
-/

/-- Sector size in bytes, from the source (FAT32_SECTOR_SIZE). -/
def FAT32_SECTOR_SIZE : Nat := 512

/-- Modelled from the spec: fat32.h is not under src; the spec names the
maximum path length constant without giving a value, 256 is assumed. -/
def FAT32_MAX_PATH_LEN : Nat := 256

/-- Modelled from the spec: maximum long filename length (at least 255). -/
def FAT32_MAX_FILENAME_LEN : Nat := 255

/-- Modelled from the spec: maximum number of 13-codeunit LFN parts for a
255-character name (fat32.h is not under src). -/
def MAX_LFN_PART : Nat := 20

/-- Free FAT entry sentinel (spec: FREE = 0). -/
def FAT32_FAT_ENTRY_FREE : Nat := 0

/-- End-of-chain FAT sentinel (spec: EOC is any value at least 0x0FFFFFF8). -/
def FAT32_FAT_ENTRY_EOC : Nat := 0x0FFFFFF8

/-- First byte of a free (deleted) directory slot. -/
def FAT32_DIR_ENTRY_FREE : Nat := 0xE5

/-- First byte marking the end of a directory. -/
def FAT32_DIR_ENTRY_END_MARKER : Nat := 0x00

/-- Archive attribute bit. -/
def FAT32_ATTR_ARCHIVE : Nat := 0x20

/-- Directory attribute bit. -/
def FAT32_ATTR_DIRECTORY : Nat := 0x10

/-- Volume label attribute bit. -/
def FAT32_ATTR_VOLUME_ID : Nat := 0x08

/-- Attribute byte value marking a long-file-name slot. -/
def FAT32_ATTR_LONG_NAME : Nat := 0x0F

/-- Number of UTF-16 codeunits per LFN slot. -/
def FAT32_DIR_LFN_PART_SIZE : Nat := 13

/-- Modulus of 32-bit unsigned arithmetic. -/
def U32 : Nat := 4294967296

/-- Error codes of fat32_error_t. -/
inductive fat32_error where
  | FAT32_OK
  | FAT32_ERROR_NO_CARD
  | FAT32_ERROR_INIT_FAILED
  | FAT32_ERROR_READ_FAILED
  | FAT32_ERROR_WRITE_FAILED
  | FAT32_ERROR_INVALID_FORMAT
  | FAT32_ERROR_NOT_MOUNTED
  | FAT32_ERROR_FILE_NOT_FOUND
  | FAT32_ERROR_INVALID_PATH
  | FAT32_ERROR_NOT_A_DIRECTORY
  | FAT32_ERROR_NOT_A_FILE
  | FAT32_ERROR_INVALID_POSITION
  | FAT32_ERROR_DIR_NOT_EMPTY
  | FAT32_ERROR_DIR_NOT_FOUND
  | FAT32_ERROR_DISK_FULL
  | FAT32_ERROR_FILE_EXISTS
  | FAT32_ERROR_INVALID_PARAMETER
  deriving DecidableEq, Repr

/-- Byte strings (C char arrays without their terminating NUL). -/
abbrev Bytes := List Nat

/-- A 512-byte sector, byte index to byte value. -/
abbrev Sector := Nat → Nat

/-- The block device contents, LBA to sector. -/
abbrev Disk := Nat → Sector

/-- Fields of fat32_boot_sector_t used by the driver (little-endian decode
of the BPB). -/
structure fat32_boot_sector where
  bytes_per_sector : Nat
  sectors_per_cluster : Nat
  reserved_sectors : Nat
  num_fats : Nat
  fat_size_16 : Nat
  fat_size_32 : Nat
  total_sectors_32 : Nat
  root_cluster : Nat
  fat32_info : Nat
  deriving DecidableEq, Repr

/-- Process-wide driver state: the card, the mount flags, the captured
boot parameters and geometry, the current directory and the disk. -/
structure FS where
  card_present : Bool
  fat32_mounted : Bool
  mount_status : fat32_error
  boot_sector : fat32_boot_sector
  volume_start_block : Nat
  first_data_sector : Nat
  data_region_sectors : Nat
  cluster_count : Nat
  bytes_per_cluster : Nat
  current_dir_cluster : Nat
  disk : Disk

/-- Read one byte of a sector (memory bytes are 8-bit). -/
def byteAt (s : Sector) (i : Nat) : Nat := s i % 256

/-- Little-endian 16-bit load. -/
def word16At (s : Sector) (i : Nat) : Nat := byteAt s i + 256 * byteAt s (i + 1)

/-- Little-endian 32-bit load (the type-punned uint32_t access). -/
def word32At (s : Sector) (i : Nat) : Nat :=
  byteAt s i + 256 * byteAt s (i + 1) + 65536 * byteAt s (i + 2) + 16777216 * byteAt s (i + 3)

/-- Store one byte of a sector. -/
def setByte (s : Sector) (i v : Nat) : Sector :=
  fun k => if k = i then v % 256 else s k

/-- Little-endian 32-bit store (the type-punned uint32_t write). -/
def setWord32 (s : Sector) (i v : Nat) : Sector :=
  fun k =>
    if k = i then v % 256
    else if k = i + 1 then v / 256 % 256
    else if k = i + 2 then v / 65536 % 256
    else if k = i + 3 then v / 16777216 % 256
    else s k

/-- Modelled from the spec: the external block device read (sdcard.c is not
under src); 512-byte sector access that fails when the card is absent. -/
def sd_read_block (fs : FS) (lba : Nat) : fat32_error × Sector :=
  if fs.card_present then (.FAT32_OK, fs.disk lba)
  else (.FAT32_ERROR_READ_FAILED, fun _ => 0)

/-- Modelled from the spec: the external block device write; fails when the
card is absent. -/
def sd_write_block (fs : FS) (lba : Nat) (s : Sector) : fat32_error × FS :=
  if fs.card_present then
    (.FAT32_OK, { fs with disk := fun k => if k = lba then s else fs.disk k })
  else (.FAT32_ERROR_WRITE_FAILED, fs)

/-- Modelled from the spec: card presence poll of the external block device. -/
def sd_card_present (fs : FS) : Bool := fs.card_present

/-- Modelled from the spec: block device initialisation; succeeds while the
card is present. -/
def sd_card_init (fs : FS) : fat32_error :=
  if fs.card_present then .FAT32_OK else .FAT32_ERROR_INIT_FAILED

/-- Volume-relative sector read (adds volume_start_block). -/
def read_sector (fs : FS) (sector : Nat) : fat32_error × Sector :=
  sd_read_block fs (fs.volume_start_block + sector)

/-- Volume-relative sector write (adds volume_start_block). -/
def write_sector (fs : FS) (sector : Nat) (buf : Sector) : fat32_error × FS :=
  sd_write_block fs (fs.volume_start_block + sector) buf

/-- First sector of a cluster; the uint32 subtraction cluster - 2 wraps, so
the computation is taken mod 2^32. -/
def cluster_to_sector (fs : FS) (cluster : Nat) : Nat :=
  ((cluster + U32 - 2) % U32 * fs.boot_sector.sectors_per_cluster + fs.first_data_sector) % U32

/-- Read the 32-bit FAT entry of a cluster, masked to its low 28 bits.
Returns 0 alongside the error code when it fails. -/
def read_cluster_fat_entry (fs : FS) (cluster : Nat) : fat32_error × Nat :=
  if cluster < 2 then (.FAT32_ERROR_INVALID_PARAMETER, 0)
  else
    let fat_offset := cluster * 4 % U32
    let fat_sector := fs.boot_sector.reserved_sectors + fat_offset / FAT32_SECTOR_SIZE
    let entry_offset := fat_offset % FAT32_SECTOR_SIZE
    let rs := read_sector fs fat_sector
    if rs.1 ≠ .FAT32_OK then (rs.1, 0)
    else (.FAT32_OK, word32At rs.2 entry_offset &&& 0x0FFFFFFF)

/-- Read-modify-write of a 32-bit FAT entry, preserving the top 4 bits of
the on-disk word. -/
def write_cluster_fat_entry (fs : FS) (cluster value : Nat) : fat32_error × FS :=
  if cluster < 2 then (.FAT32_ERROR_INVALID_PARAMETER, fs)
  else
    let fat_offset := cluster * 4 % U32
    let fat_sector := fs.boot_sector.reserved_sectors + fat_offset / FAT32_SECTOR_SIZE
    let entry_offset := fat_offset % FAT32_SECTOR_SIZE
    let rs := read_sector fs fat_sector
    if rs.1 ≠ .FAT32_OK then (rs.1, fs)
    else
      let w := (word32At rs.2 entry_offset &&& 0xF0000000) ||| (value &&& 0x0FFFFFFF)
      let ws := write_sector fs fat_sector (setWord32 rs.2 entry_offset w)
      if ws.1 ≠ .FAT32_OK then (ws.1, fs)
      else (.FAT32_OK, ws.2)

/-- Walk a cluster chain marking every link free; stops at an EOC link.
Fuel bounds the number of links followed. -/
def release_cluster_chain_loop (fs : FS) (cluster : Nat) : Nat → Option (fat32_error × FS)
  | 0 => none
  | fuel + 1 =>
    if cluster < FAT32_FAT_ENTRY_EOC then
      let rf := read_cluster_fat_entry fs cluster
      if rf.1 ≠ .FAT32_OK then some (rf.1, fs)
      else
        let wf := write_cluster_fat_entry fs cluster FAT32_FAT_ENTRY_FREE
        if wf.1 ≠ .FAT32_OK then some (wf.1, fs)
        else
          if rf.2 ≥ FAT32_FAT_ENTRY_EOC then some (.FAT32_OK, wf.2)
          else release_cluster_chain_loop wf.2 rf.2 fuel
    else some (.FAT32_OK, fs)

/-- Release a whole cluster chain; start clusters below 2 are rejected. -/
def release_cluster_chain (fs : FS) (start_cluster : Nat) (fuel : Nat) :
    Option (fat32_error × FS) :=
  if start_cluster < 2 then some (.FAT32_ERROR_INVALID_PARAMETER, fs)
  else release_cluster_chain_loop fs start_cluster fuel

/-- C toupper in the C locale, on a byte. -/
def toupperByte (c : Nat) : Nat := if 97 ≤ c ∧ c ≤ 122 then c - 32 else c

/-- C tolower in the C locale, on a byte. -/
def tolowerByte (c : Nat) : Nat := if 65 ≤ c ∧ c ≤ 90 then c + 32 else c

/-- Split a byte string at its last '.' (strrchr): the part before and the
part after the dot, or none when no dot occurs. -/
def lastDotSplit (s : Bytes) : Option (Bytes × Bytes) :=
  if 46 ∈ s then
    let p := s.length - 1 - s.reverse.indexOf 46
    some (s.take p, s.drop (p + 1))
  else none

/-- filename_to_shortname: pad 11 spaces, uppercase, split on the last dot,
truncate the base to 8 and the extension to 3 silently. -/
def filename_to_shortname (filename : Bytes) : Bytes :=
  let parts := match lastDotSplit filename with
    | some (b, a) => (b, a)
    | none => (filename, [])
  let base := (parts.1.take 8).map toupperByte
  let ext := (parts.2.take 3).map toupperByte
  base ++ List.replicate (8 - base.length) 32 ++ ext ++ List.replicate (3 - ext.length) 32

/-- shortname_to_filename: name part up to the first space, lowercased;
extension chars that are not spaces, lowercased, joined with a dot when
any exist. -/
def shortname_to_filename (shortname : Bytes) : Bytes :=
  let base := ((shortname.take 8).takeWhile (· ≠ 32)).map tolowerByte
  let extChars := (((shortname.drop 8).take 3).filter (· ≠ 32)).map tolowerByte
  base ++ (if extChars = [] then [] else 46 :: extChars)

/-- shortname_checksum: 11 steps of rotate-right-uint8 then add. -/
def shortname_checksum (shortname : Bytes) : Nat :=
  (shortname.take 11).foldl
    (fun sum b => ((if sum % 2 = 1 then 128 else 0) + sum / 2 + b % 256) % 256) 0

/-- utf16_to_utf8: ASCII passes through, everything else becomes '?'. -/
def utf16_to_utf8 (u : Nat) : Nat := if u < 128 then u else 63

/-- utf8_to_utf16: the unsigned-char cast of an ASCII byte. -/
def utf8_to_utf16 (c : Nat) : Nat := c % 256

/-- utf8_to_lfn_ch: NUL terminator exactly at the length, 0xFFFF padding
beyond it, the UTF-16 codeunit otherwise. -/
def utf8_to_lfn_ch (c : Nat) (index len : Nat) : Nat :=
  if index = len then 0
  else if index > len then 0xFFFF
  else utf8_to_utf16 c

/-- LFN slot structure (fat32_lfn_entry_t); name fragments hold 5, 6 and 2
UTF-16 codeunits. -/
structure fat32_lfn_entry where
  seq : Nat
  name1 : Bytes
  attr : Nat
  type : Nat
  checksum : Nat
  name2 : Bytes
  first_clus : Nat
  name3 : Bytes
  deriving DecidableEq, Repr

/-- Codeunit fed into LFN part construction at global position j of the
name (the sequential *(name++) / j++ reads of filename_to_lfn). -/
def lfn_ch (filename : Bytes) (j : Nat) : Nat :=
  utf8_to_lfn_ch (filename.getD j 0) j filename.length

/-- One 13-codeunit LFN part of filename_to_lfn; the remaining header
fields are the zeroes left by the initial memset. -/
def mk_lfn_part (filename : Bytes) (i : Nat) : fat32_lfn_entry :=
  let b := 13 * i
  { seq := 0, attr := 0, type := 0, checksum := 0, first_clus := 0
    name1 := [lfn_ch filename b, lfn_ch filename (b + 1), lfn_ch filename (b + 2),
              lfn_ch filename (b + 3), lfn_ch filename (b + 4)]
    name2 := [lfn_ch filename (b + 5), lfn_ch filename (b + 6), lfn_ch filename (b + 7),
              lfn_ch filename (b + 8), lfn_ch filename (b + 9), lfn_ch filename (b + 10)]
    name3 := [lfn_ch filename (b + 11), lfn_ch filename (b + 12)] }

/-- filename_to_lfn: the number of LFN parts, (len + 12) / 13, together
with the parts filled into the staging buffer. -/
def filename_to_lfn (filename : Bytes) : Nat × List fat32_lfn_entry :=
  let part_count := (filename.length + 12) / 13
  (part_count, (List.range part_count).map (mk_lfn_part filename))

/-- The 13 codeunits of an LFN part in name order. -/
def lfn_codeunits (e : fat32_lfn_entry) : Bytes := e.name1 ++ e.name2 ++ e.name3

/-- is_sector_mbr: 0x55AA signature and at least one nonzero partition
type in the partition table. -/
def is_sector_mbr (s : Sector) : Bool :=
  (byteAt s 510 == 0x55 && byteAt s 511 == 0xAA) &&
  (List.range 4).any (fun i => byteAt s (446 + i * 16 + 4) != 0)

/-- is_sector_boot_sector: 0x55AA signature, a jump byte and a sensible
bytes-per-sector field. -/
def is_sector_boot_sector (s : Sector) : Bool :=
  (byteAt s 510 == 0x55 && byteAt s 511 == 0xAA) &&
  (byteAt s 0 == 0xEB || byteAt s 0 == 0xE9) &&
  (word16At s 11 == 512 || word16At s 11 == 1024 ||
   word16At s 11 == 2048 || word16At s 11 == 4096)

/-- Little-endian decode of the BPB fields the driver copies out of the
boot sector (the memcpy into fat32_boot_sector_t). -/
def decode_boot_sector (s : Sector) : fat32_boot_sector :=
  { bytes_per_sector := word16At s 11
    sectors_per_cluster := byteAt s 13
    reserved_sectors := word16At s 14
    num_fats := byteAt s 16
    fat_size_16 := word16At s 22
    fat_size_32 := word32At s 36
    total_sectors_32 := word32At s 32
    root_cluster := word32At s 44
    fat32_info := word16At s 48 }

/-- is_valid_fat32_boot_sector: the BPB validation chain. -/
def is_valid_fat32_boot_sector (bs : fat32_boot_sector) : fat32_error :=
  if bs.bytes_per_sector ≠ FAT32_SECTOR_SIZE then .FAT32_ERROR_INVALID_FORMAT
  else if bs.sectors_per_cluster = 0 ∨ bs.sectors_per_cluster > 128 ∨
      (bs.sectors_per_cluster &&& (bs.sectors_per_cluster - 1)) ≠ 0 then
    .FAT32_ERROR_INVALID_FORMAT
  else if bs.num_fats = 0 ∨ bs.num_fats > 2 then .FAT32_ERROR_INVALID_FORMAT
  else if bs.reserved_sectors = 0 then .FAT32_ERROR_INVALID_FORMAT
  else if bs.fat_size_16 ≠ 0 ∨ bs.fat_size_32 = 0 then .FAT32_ERROR_INVALID_FORMAT
  else if bs.total_sectors_32 = 0 then .FAT32_ERROR_INVALID_FORMAT
  else .FAT32_OK

/-- Outcome of the partition-table scan in fat32_mount. -/
inductive ScanResult where
  | err : fat32_error → ScanResult
  | found : Nat → Sector → ScanResult
  | notfound : ScanResult

/-- The four-entry partition loop of fat32_mount: skip inactive entries,
accept the first FAT32 partition, re-read the boot sector from its LBA. -/
def mount_scan (fs : FS) (s : Sector) : List Nat → ScanResult
  | [] => .notfound
  | i :: rest =>
    let base := 446 + i * 16
    if byteAt s base ≠ 0 ∧ byteAt s base ≠ 0x80 then mount_scan fs s rest
    else if byteAt s (base + 4) = 0x0B ∨ byteAt s (base + 4) = 0x0C then
      let lba := word32At s (base + 8)
      let rb := sd_read_block fs lba
      if rb.1 ≠ .FAT32_OK then .err rb.1 else .found lba rb.2
    else mount_scan fs s rest

/-- Tail of fat32_mount: copy and validate the BPB, compute the geometry
(uint32 arithmetic, wrapping) and reject FAT12/16 volumes. -/
def mount_finish (fs : FS) (s : Sector) : fat32_error × FS :=
  let bs := decode_boot_sector s
  let fs1 := { fs with boot_sector := bs }
  let v := is_valid_fat32_boot_sector bs
  if v ≠ .FAT32_OK then (v, fs1)
  else
    let fat_sectors := bs.num_fats * bs.fat_size_32 % U32
    let bpc := bs.sectors_per_cluster * FAT32_SECTOR_SIZE
    let fds := (bs.reserved_sectors + fat_sectors) % U32
    let drs := (bs.total_sectors_32 + U32 - fat_sectors) % U32
    let cc := drs / bs.sectors_per_cluster
    let fs2 := { fs1 with bytes_per_cluster := bpc, first_data_sector := fds,
                          data_region_sectors := drs, cluster_count := cc }
    if cc < 65525 then (.FAT32_ERROR_INVALID_FORMAT, fs2)
    else (.FAT32_OK, { fs2 with current_dir_cluster := bs.root_cluster, fat32_mounted := true })

/-- fat32_unmount: clear the geometry, drop the mounted flag, record
NoCard as the status. -/
def fat32_unmount (fs : FS) : FS :=
  { fs with fat32_mounted := false, mount_status := .FAT32_ERROR_NO_CARD,
            volume_start_block := 0, first_data_sector := 0, data_region_sectors := 0,
            cluster_count := 0, bytes_per_cluster := 0, current_dir_cluster := 0 }

/-- fat32_mount: detect MBR vs raw BPB, pick the first FAT32 partition,
validate and capture the geometry; trivially succeeds when mounted. -/
def fat32_mount (fs : FS) : fat32_error × FS :=
  if ¬ sd_card_present fs then (.FAT32_ERROR_NO_CARD, fat32_unmount fs)
  else if fs.fat32_mounted then (.FAT32_OK, fs)
  else if sd_card_init fs ≠ .FAT32_OK then (sd_card_init fs, fs)
  else
    let rb := sd_read_block fs 0
    if rb.1 ≠ .FAT32_OK then (rb.1, fs)
    else if is_sector_mbr rb.2 then
      let fs1 := { fs with volume_start_block := 0 }
      match mount_scan fs1 rb.2 [0, 1, 2, 3] with
      | .err e => (e, fs1)
      | .notfound => (.FAT32_ERROR_INVALID_FORMAT, fs1)
      | .found lba s2 =>
        let fs2 := { fs1 with volume_start_block := lba }
        if lba = 0 then (.FAT32_ERROR_INVALID_FORMAT, fs2)
        else mount_finish fs2 s2
    else if is_sector_boot_sector rb.2 then
      mount_finish { fs with volume_start_block := 0 } rb.2
    else (.FAT32_ERROR_INVALID_FORMAT, fs)

/-- fat32_is_ready: mount on demand while the card is present, unmount
when it is gone; true when the recorded status is OK. -/
def fat32_is_ready (fs : FS) : Bool × FS :=
  if sd_card_present fs then
    if ¬ fs.fat32_mounted then
      let m := fat32_mount fs
      let fs2 := { m.2 with mount_status := m.1 }
      (fs2.mount_status == .FAT32_OK, fs2)
    else (fs.mount_status == .FAT32_OK, fs)
  else
    let fs1 := if fs.fat32_mounted then fat32_unmount fs else fs
    let fs2 := { fs1 with mount_status := .FAT32_ERROR_NO_CARD }
    (fs2.mount_status == .FAT32_OK, fs2)

/-- Directory handle (fat32_dir_t). -/
structure fat32_dir where
  is_open : Bool
  start_cluster : Nat
  current_cluster : Nat
  position : Nat
  last_entry_read : Bool
  deriving DecidableEq, Repr

/-- Resolved directory entry (fat32_entry_t): decoded filename, attribute,
start cluster, size, stamps, and the on-disk location of the 8.3 slot. -/
structure fat32_entry where
  filename : Bytes
  attr : Nat
  start_cluster : Nat
  size : Nat
  date : Nat
  time : Nat
  sector : Nat
  offset : Nat
  deriving DecidableEq, Repr

/-- File handle (fat32_file_t). -/
structure fat32_file where
  is_open : Bool
  start_cluster : Nat
  current_cluster : Nat
  file_size : Nat
  position : Nat
  attributes : Nat
  dir_entry_sector : Nat
  dir_entry_offset : Nat
  deriving DecidableEq, Repr

/-- The all-zero entry left by the clearing memset. -/
def zero_entry : fat32_entry := ⟨[], 0, 0, 0, 0, 0, 0, 0⟩

/-- The all-zero directory handle left by memset. -/
def zero_dir : fat32_dir := ⟨false, 0, 0, 0, false⟩

/-- The all-zero file handle left by memset. -/
def zero_file : fat32_file := ⟨false, 0, 0, 0, 0, 0, 0, 0⟩

/-- The zero-initialised LFN staging buffer. -/
def zero_buf : Sector := fun _ => 0

/-- The 13 UTF-16 codeunits of an on-disk LFN slot at byte offset off of a
sector, in name order (name1, name2, name3 fields). -/
def lfn_slot_codeunits (buf : Sector) (off : Nat) : Bytes :=
  [word16At buf (off + 1), word16At buf (off + 3), word16At buf (off + 5),
   word16At buf (off + 7), word16At buf (off + 9),
   word16At buf (off + 14), word16At buf (off + 16), word16At buf (off + 18),
   word16At buf (off + 20), word16At buf (off + 22), word16At buf (off + 24),
   word16At buf (off + 28), word16At buf (off + 30)]

/-- lfn_to_str into the staging buffer: 13 converted bytes written at
offset o. -/
def write_lfn_part (fname : Sector) (o : Nat) (cus : Bytes) : Sector :=
  fun k => if o ≤ k ∧ k < o + 13 then utf16_to_utf8 (cus.getD (k - o) 0) else fname k

/-- The NUL-terminated content of the staging buffer (strcpy semantics,
bounded by the buffer size). -/
def buf_to_bytes (fname : Sector) : Bytes :=
  ((List.range (FAT32_MAX_FILENAME_LEN + 1)).map fname).takeWhile (· ≠ 0)

/-- The 11 shortname bytes of the directory slot at byte offset off. -/
def slot_shortname (buf : Sector) (off : Nat) : Bytes :=
  (List.range 11).map (fun k => byteAt buf (off + k))

/-- One step classification of the fat32_dir_read loop: the updated
handle, staging buffer, latched checksum, and the assembled entry when
the slot is a live 8.3 entry.  Mirrors the if/else chain of the loop
body (end marker, LFN slot, free slot, live entry). -/
def dir_read_classify (buf : Sector) (off sector : Nat) (dir : fat32_dir)
    (fname : Sector) (csum : Nat) :
    fat32_dir × Sector × Nat × Option fat32_entry :=
  let first := byteAt buf off
  let attr := byteAt buf (off + 11)
  if first = FAT32_DIR_ENTRY_END_MARKER then
    ({ dir with last_entry_read := true }, fname, csum, none)
  else if attr = FAT32_ATTR_LONG_NAME then
    let seq := byteAt buf off
    let fnameA := if seq &&& 0x40 ≠ 0 then zero_buf else fname
    let csumA := if seq &&& 0x40 ≠ 0 then byteAt buf (off + 13) else csum
    let fname1 :=
      if byteAt buf (off + 13) = csumA then
        write_lfn_part fnameA (((seq &&& 0x3F) - 1) * FAT32_DIR_LFN_PART_SIZE)
          (lfn_slot_codeunits buf off)
      else fnameA
    (dir, fname1, csumA, none)
  else if first ≠ FAT32_DIR_ENTRY_FREE then
    let checksum := shortname_checksum (slot_shortname buf off)
    let fn :=
      if fname 0 ≠ 0 ∧ csum = checksum then buf_to_bytes fname
      else shortname_to_filename (slot_shortname buf off)
    let ent : fat32_entry :=
      { filename := fn, attr := attr
        start_cluster := (word16At buf (off + 20)) <<< 16 ||| word16At buf (off + 26)
        size := word32At buf (off + 28)
        date := word16At buf (off + 24), time := word16At buf (off + 22)
        sector := sector, offset := off }
    (dir, fname, csum, some ent)
  else
    (dir, fname, csum, none)

/-- The scanning loop of fat32_dir_read: read the sector holding the next
32-byte slot, classify it, advance the position by 32 following the FAT
across cluster boundaries, and stop on a live entry, the end marker, the
end of the chain, or an I/O error.  Fuel bounds the number of slots. -/
def dir_read_loop (fs : FS) (dir : fat32_dir) (fname : Sector) (csum : Nat) :
    Nat → Option (fat32_error × fat32_entry × fat32_dir)
  | 0 => none
  | fuel + 1 =>
    let cluster_offset := dir.position % fs.bytes_per_cluster
    let sector_in_cluster := cluster_offset / FAT32_SECTOR_SIZE
    let sector := cluster_to_sector fs dir.current_cluster + sector_in_cluster
    let rs := read_sector fs sector
    if rs.1 ≠ .FAT32_OK then some (rs.1, zero_entry, dir)
    else
      let off := dir.position % FAT32_SECTOR_SIZE
      let c := dir_read_classify rs.2 off sector dir fname csum
      let dir2 := { c.1 with position := c.1.position + 32 }
      if dir2.position % fs.bytes_per_cluster = 0 then
        let rf := read_cluster_fat_entry fs dir2.current_cluster
        if rf.1 ≠ .FAT32_OK then some (rf.1, (c.2.2.2).getD zero_entry, dir2)
        else if rf.2 ≥ FAT32_FAT_ENTRY_EOC then
          some (.FAT32_OK, (c.2.2.2).getD zero_entry, { dir2 with last_entry_read := true })
        else
          let dir3 := { dir2 with current_cluster := rf.2 }
          match c.2.2.2 with
          | some ent => some (.FAT32_OK, ent, dir3)
          | none =>
            if dir3.last_entry_read then some (.FAT32_OK, zero_entry, dir3)
            else dir_read_loop fs dir3 c.2.1 c.2.2.1 fuel
      else
        match c.2.2.2 with
        | some ent => some (.FAT32_OK, ent, dir2)
        | none =>
          if dir2.last_entry_read then some (.FAT32_OK, zero_entry, dir2)
          else dir_read_loop fs dir2 c.2.1 c.2.2.1 fuel

/-- fat32_dir_read: guards, then the scanning loop with a fresh staging
buffer.  The sector cache of the C loop is elided because reads are pure
here; re-reading an unchanged sector returns the same bytes. -/
def fat32_dir_read (fs : FS) (dir : fat32_dir) (fuel : Nat) :
    Option (fat32_error × fat32_entry × fat32_dir × FS) :=
  if ¬ dir.is_open then some (.FAT32_ERROR_READ_FAILED, zero_entry, dir, fs)
  else
    let rdy := fat32_is_ready fs
    if ¬ rdy.1 then some (rdy.2.mount_status, zero_entry, dir, rdy.2)
    else if dir.last_entry_read then some (.FAT32_OK, zero_entry, dir, rdy.2)
    else (dir_read_loop rdy.2 dir zero_buf 0 fuel).map (fun r => (r.1, r.2.1, r.2.2, rdy.2))

/-- Case-insensitive ASCII string equality (strcasecmp == 0). -/
def strcaseeq (a b : Bytes) : Bool := a.map tolowerByte == b.map tolowerByte

/-- Split a byte string on '/' accumulating the current token. -/
def split_slash_go (cur : Bytes) (acc : List Bytes) : Bytes → List Bytes
  | [] => acc ++ [cur]
  | c :: rest =>
    if c = 47 then split_slash_go [] (acc ++ [cur]) rest
    else split_slash_go (cur ++ [c]) acc rest

/-- strtok_r tokenisation on '/': the nonempty tokens in order. -/
def tokenize (p : Bytes) : List Bytes := (split_slash_go [] [] p).filter (· ≠ [])

/-- Outcome of scanning one directory for one path component. -/
inductive ScanOut where
  | last : fat32_entry → ScanOut
  | descend : Nat → ScanOut
  | missing : ScanOut
  deriving Repr

/-- The inner loop of find_entry: enumerate a directory looking for a
case-insensitive match of one component.  A match on the last component
returns the entry; a matching directory in the middle yields its cluster
(0 mapped to the root); scanning past the end yields missing. -/
def find_entry_scan (fs : FS) (dir : fat32_dir) (tok : Bytes) (isLast : Bool) :
    Nat → Option (ScanOut × FS)
  | 0 => none
  | fuel + 1 =>
    match fat32_dir_read fs dir fuel with
    | none => none
    | some (e, ent, dir2, fs2) =>
      if e ≠ .FAT32_OK ∨ ent.filename = [] then some (.missing, fs2)
      else if strcaseeq ent.filename tok then
        if isLast then some (.last ent, fs2)
        else if ent.attr &&& FAT32_ATTR_DIRECTORY ≠ 0 then
          some (.descend (if ent.start_cluster = 0 then fs2.boot_sector.root_cluster
                          else ent.start_cluster), fs2)
        else find_entry_scan fs2 dir2 tok isLast fuel
      else find_entry_scan fs2 dir2 tok isLast fuel

/-- The outer token loop of find_entry. -/
def find_entry_go (fs : FS) (cluster : Nat) (fuel : Nat) :
    List Bytes → Option (fat32_error × fat32_entry × FS)
  | [] => some (.FAT32_ERROR_FILE_NOT_FOUND, zero_entry, fs)
  | tok :: rest =>
    let dir : fat32_dir :=
      { is_open := true, start_cluster := cluster, current_cluster := cluster,
        position := 0, last_entry_read := false }
    match find_entry_scan fs dir tok (rest = []) fuel with
    | none => none
    | some (.last ent, fs2) => some (.FAT32_OK, ent, fs2)
    | some (.descend c, fs2) => find_entry_go fs2 c fuel rest
    | some (.missing, fs2) =>
      if rest ≠ [] then some (.FAT32_ERROR_INVALID_PATH, zero_entry, fs2)
      else some (.FAT32_ERROR_FILE_NOT_FOUND, zero_entry, fs2)

/-- find_entry: resolve a path from the root or the current directory,
with the special cases for "/", the empty path, and "." or ".." at the
root; the path copy is truncated to FAT32_MAX_PATH_LEN - 1 bytes by
strncpy before tokenisation. -/
def find_entry (fs : FS) (path : Bytes) (fuel : Nat) :
    Option (fat32_error × fat32_entry × FS) :=
  if path = [47] then
    some (.FAT32_OK,
      { zero_entry with start_cluster := fs.boot_sector.root_cluster,
                        attr := FAT32_ATTR_DIRECTORY }, fs)
  else if path = [] ∨ ((path = [46] ∨ path = [46, 46]) ∧
      fs.current_dir_cluster = fs.boot_sector.root_cluster) then
    some (.FAT32_OK,
      { zero_entry with start_cluster := fs.current_dir_cluster,
                        attr := FAT32_ATTR_DIRECTORY }, fs)
  else
    let cluster := if path.headD 0 = 47 then fs.boot_sector.root_cluster
                   else fs.current_dir_cluster
    let stripped := if path.headD 0 = 47 then path.drop 1 else path
    let truncated := stripped.take (FAT32_MAX_PATH_LEN - 1)
    find_entry_go fs cluster fuel (tokenize truncated)

/-- fat32_dir_open: length guard, ready check, resolve, require the
directory attribute, map a zero start cluster to the root. -/
def fat32_dir_open (fs : FS) (path : Bytes) (fuel : Nat) :
    Option (fat32_error × fat32_dir × FS) :=
  if path.length > FAT32_MAX_PATH_LEN then some (.FAT32_ERROR_INVALID_PATH, zero_dir, fs)
  else
    let rdy := fat32_is_ready fs
    if ¬ rdy.1 then some (rdy.2.mount_status, zero_dir, rdy.2)
    else
      match find_entry rdy.2 path fuel with
      | none => none
      | some (e, ent, fs2) =>
        if e ≠ .FAT32_OK then some (e, zero_dir, fs2)
        else if ent.attr &&& FAT32_ATTR_DIRECTORY = 0 then
          some (.FAT32_ERROR_NOT_A_DIRECTORY, zero_dir, fs2)
        else
          some (.FAT32_OK,
            { is_open := true
              start_cluster := if ent.start_cluster = 0 then fs2.boot_sector.root_cluster
                               else ent.start_cluster
              current_cluster := if ent.start_cluster = 0 then fs2.boot_sector.root_cluster
                                 else ent.start_cluster
              position := 0, last_entry_read := false }, fs2)

/-- fat32_dir_close: accepts any pointer, zeroes an open handle, leaves
a closed one alone, always succeeds, never touches the disk. -/
def fat32_dir_close (dir : Option fat32_dir) : fat32_error × Option fat32_dir :=
  match dir with
  | none => (.FAT32_OK, none)
  | some d => if d.is_open then (.FAT32_OK, some zero_dir) else (.FAT32_OK, some d)

/-- fat32_file_close: accepts any pointer, zeroes an open handle, leaves
a closed one alone, always succeeds, never touches the disk. -/
def fat32_file_close (file : Option fat32_file) : fat32_error × Option fat32_file :=
  match file with
  | none => (.FAT32_OK, none)
  | some f => if f.is_open then (.FAT32_OK, some zero_file) else (.FAT32_OK, some f)

/-- The emptiness check loop of delete_entry: enumerate the directory;
false as soon as an entry other than "." and ".." appears, true when the
enumeration ends (also on a read error, as in the C loop condition). -/
def dir_empty_check (fs : FS) (dir : fat32_dir) :
    Nat → Option (Bool × FS)
  | 0 => none
  | fuel + 1 =>
    match fat32_dir_read fs dir fuel with
    | none => none
    | some (e, ent, dir2, fs2) =>
      if e ≠ .FAT32_OK ∨ ent.filename = [] then some (true, fs2)
      else if ent.filename ≠ [46] ∧ ent.filename ≠ [46, 46] then some (false, fs2)
      else dir_empty_check fs2 dir2 fuel

/-- The backward same-sector LFN scan of delete_entry: walk back in
32-byte steps from the 8.3 slot while the preceding slot is an LFN slot,
marking each one free; stops at the sector start or a non-LFN slot. -/
def delete_lfn_backscan (buf : Sector) (offset : Nat) (i : Nat) : Sector :=
  if i > MAX_LFN_PART then buf
  else if offset < i * 32 then buf
  else if byteAt buf (offset - i * 32 + 11) = FAT32_ATTR_LONG_NAME then
    delete_lfn_backscan (setByte buf (offset - i * 32) FAT32_DIR_ENTRY_FREE) offset (i + 1)
  else buf
termination_by MAX_LFN_PART + 1 - i

/-- Tail of delete_entry: mark the same-sector LFN slots and the 8.3 slot
free, write the sector back, then release the cluster chain discarding
its result. -/
def delete_entry_finish (fs : FS) (ent : fat32_entry) (fuel : Nat) :
    Option (fat32_error × FS) :=
  let rs := read_sector fs ent.sector
  if rs.1 ≠ .FAT32_OK then some (rs.1, fs)
  else
    let buf1 := delete_lfn_backscan rs.2 ent.offset 1
    let buf2 := setByte buf1 ent.offset FAT32_DIR_ENTRY_FREE
    let ws := write_sector fs ent.sector buf2
    if ws.1 ≠ .FAT32_OK then some (ws.1, fs)
    else
      match release_cluster_chain ws.2 ent.start_cluster fuel with
      | none => none
      | some r => some (.FAT32_OK, r.2)

/-- delete_entry: resolve the path, reject kind mismatches, require
directories to hold nothing but "." and "..", then free the slots and
the chain. -/
def delete_entry (fs : FS) (path : Bytes) (is_dir : Bool) (fuel : Nat) :
    Option (fat32_error × FS) :=
  match find_entry fs path fuel with
  | none => none
  | some (e, ent, fs1) =>
    if e ≠ .FAT32_OK then some (e, fs1)
    else if is_dir then
      if ent.attr &&& FAT32_ATTR_DIRECTORY = 0 then
        some (.FAT32_ERROR_NOT_A_DIRECTORY, fs1)
      else
        match fat32_dir_open fs1 path fuel with
        | none => none
        | some (e2, dir, fs2) =>
          if e2 ≠ .FAT32_OK then some (e2, fs2)
          else
            match dir_empty_check fs2 dir fuel with
            | none => none
            | some (empty, fs3) =>
              if ¬ empty then some (.FAT32_ERROR_DIR_NOT_EMPTY, fs3)
              else delete_entry_finish fs3 ent fuel
    else
      if ent.attr &&& FAT32_ATTR_DIRECTORY ≠ 0 ∨ ent.attr &&& FAT32_ATTR_VOLUME_ID ≠ 0 then
        some (.FAT32_ERROR_NOT_A_FILE, fs1)
      else delete_entry_finish fs1 ent fuel

/-- fat32_file_delete: guards then delete_entry with is_dir false. -/
def fat32_file_delete (fs : FS) (path : Bytes) (fuel : Nat) :
    Option (fat32_error × FS) :=
  if path = [] then some (.FAT32_ERROR_INVALID_PARAMETER, fs)
  else
    let rdy := fat32_is_ready fs
    if ¬ rdy.1 then some (rdy.2.mount_status, rdy.2)
    else delete_entry rdy.2 path false fuel

/-- fat32_dir_delete: guards then delete_entry with is_dir true. -/
def fat32_dir_delete (fs : FS) (path : Bytes) (fuel : Nat) :
    Option (fat32_error × FS) :=
  if path = [] then some (.FAT32_ERROR_INVALID_PARAMETER, fs)
  else
    let rdy := fat32_is_ready fs
    if ¬ rdy.1 then some (rdy.2.mount_status, rdy.2)
    else delete_entry rdy.2 path true fuel

/-- fat32_file_open: guards (empty path, path length, readiness), resolve,
reject directories and volume labels, populate the handle. -/
def fat32_file_open (fs : FS) (path : Bytes) (fuel : Nat) :
    Option (fat32_error × fat32_file × FS) :=
  if path = [] then some (.FAT32_ERROR_INVALID_PARAMETER, zero_file, fs)
  else if path.length > FAT32_MAX_PATH_LEN then
    some (.FAT32_ERROR_INVALID_PATH, zero_file, fs)
  else
    let rdy := fat32_is_ready fs
    if ¬ rdy.1 then some (rdy.2.mount_status, zero_file, rdy.2)
    else
      match find_entry rdy.2 path fuel with
      | none => none
      | some (e, ent, fs2) =>
        if e ≠ .FAT32_OK then some (e, zero_file, fs2)
        else if ent.attr &&& FAT32_ATTR_DIRECTORY ≠ 0 ∨
            ent.attr &&& FAT32_ATTR_VOLUME_ID ≠ 0 then
          some (.FAT32_ERROR_NOT_A_FILE, zero_file, fs2)
        else
          some (.FAT32_OK,
            { is_open := true, start_cluster := ent.start_cluster
              current_cluster := ent.start_cluster, file_size := ent.size
              position := 0, attributes := ent.attr
              dir_entry_sector := ent.sector, dir_entry_offset := ent.offset }, fs2)

/-- The copy loop of fat32_file_read: per iteration read the sector under
the position, copy up to the sector end (clamped to the remaining
request), advance, and follow the FAT at cluster boundaries, breaking at
the end of the chain.  Terminates because each iteration copies at least
one byte.  Returns (error, total, position, cluster, data). -/
def fat32_file_read_loop (fs : FS) (cur pos size total : Nat) (acc : Bytes) :
    fat32_error × Nat × Nat × Nat × Bytes :=
  if h : total < size then
    let cluster_offset := pos % fs.bytes_per_cluster
    let sector_in_cluster := cluster_offset / FAT32_SECTOR_SIZE
    let byte_in_sector := cluster_offset % FAT32_SECTOR_SIZE
    let sector := cluster_to_sector fs cur + sector_in_cluster
    let rs := read_sector fs sector
    if rs.1 ≠ .FAT32_OK then (rs.1, total, pos, cur, acc)
    else
      let bytes_to_copy := min (FAT32_SECTOR_SIZE - byte_in_sector) (size - total)
      let acc2 := acc ++ (List.range bytes_to_copy).map (fun k => byteAt rs.2 (byte_in_sector + k))
      let total2 := total + bytes_to_copy
      let pos2 := pos + bytes_to_copy
      if pos2 % fs.bytes_per_cluster = 0 ∧ total2 < size then
        let rf := read_cluster_fat_entry fs cur
        if rf.1 ≠ .FAT32_OK ∨ rf.2 ≥ FAT32_FAT_ENTRY_EOC then
          (.FAT32_OK, total2, pos2, cur, acc2)
        else fat32_file_read_loop fs rf.2 pos2 size total2 acc2
      else fat32_file_read_loop fs cur pos2 size total2 acc2
  else (.FAT32_OK, total, pos, cur, acc)
termination_by size - total
decreasing_by
  all_goals
    simp only [FAT32_SECTOR_SIZE]
    have hb : pos % fs.bytes_per_cluster % 512 < 512 := Nat.mod_lt _ (by omega)
    omega

/-- fat32_file_read: guards, EOF short-circuit, clamp the request to the
remaining file size, then the copy loop.  Returns the error, the stored
bytes_read, the data delivered, the updated handle and the state. -/
def fat32_file_read (fs : FS) (file : fat32_file) (size : Nat) :
    fat32_error × Nat × Bytes × fat32_file × FS :=
  if ¬ file.is_open then (.FAT32_ERROR_INVALID_PARAMETER, 0, [], file, fs)
  else
    let rdy := fat32_is_ready fs
    if ¬ rdy.1 then (rdy.2.mount_status, 0, [], file, rdy.2)
    else if file.position ≥ file.file_size then (.FAT32_OK, 0, [], file, rdy.2)
    else
      let size2 := min size (file.file_size - file.position)
      let r := fat32_file_read_loop rdy.2 file.current_cluster file.position size2 0 []
      (r.1, (if r.1 = .FAT32_OK then r.2.1 else 0), r.2.2.2.2,
       { file with position := r.2.2.1, current_cluster := r.2.2.2.1 }, rdy.2)

/-- fat32_set_current_dir: validate the directory by opening it and
capture its start cluster as the current directory. -/
def fat32_set_current_dir (fs : FS) (path : Bytes) (fuel : Nat) :
    Option (fat32_error × FS) :=
  if path = [] then some (.FAT32_ERROR_INVALID_PARAMETER, fs)
  else
    let rdy := fat32_is_ready fs
    if ¬ rdy.1 then some (rdy.2.mount_status, rdy.2)
    else
      match fat32_dir_open rdy.2 path fuel with
      | none => none
      | some (e, dir, fs2) =>
        if e ≠ .FAT32_OK then some (e, fs2)
        else some (.FAT32_OK, { fs2 with current_dir_cluster := dir.start_cluster })

/-- The ".." search of fat32_get_current_dir: scan a directory for its
".." entry (giving up after more than two other entries), mapping a zero
parent cluster to the root. -/
def find_dotdot_loop (fs : FS) (dir : fat32_dir) (entry_count : Nat) :
    Nat → Option (Option Nat × FS)
  | 0 => none
  | fuel + 1 =>
    match fat32_dir_read fs dir fuel with
    | none => none
    | some (e, ent, dir2, fs2) =>
      if e ≠ .FAT32_OK ∨ ent.filename = [] then some (none, fs2)
      else if ent.attr &&& FAT32_ATTR_DIRECTORY ≠ 0 ∧ ent.filename = [46, 46] then
        some (some (if ent.start_cluster = 0 then fs2.boot_sector.root_cluster
                    else ent.start_cluster), fs2)
      else if entry_count + 1 > 2 then some (none, fs2)
      else find_dotdot_loop fs2 dir2 (entry_count + 1) fuel

/-- The parent scan of fat32_get_current_dir: find the named entry of the
parent whose start cluster is the child, skipping "." and "..";
the name is truncated to FAT32_MAX_FILENAME_LEN by strncpy. -/
def find_name_loop (fs : FS) (dir : fat32_dir) (target : Nat) :
    Nat → Option (Option Bytes × FS)
  | 0 => none
  | fuel + 1 =>
    match fat32_dir_read fs dir fuel with
    | none => none
    | some (e, ent, dir2, fs2) =>
      if e ≠ .FAT32_OK ∨ ent.filename = [] then some (none, fs2)
      else if ent.attr &&& FAT32_ATTR_DIRECTORY ≠ 0 ∧ ent.start_cluster = target ∧
          ent.filename ≠ [46] ∧ ent.filename ≠ [46, 46] then
        some (some (ent.filename.take FAT32_MAX_FILENAME_LEN), fs2)
      else find_name_loop fs2 dir2 target fuel

/-- The upward walk of fat32_get_current_dir, at most 16 levels: find the
parent through "..", find this directory's name in the parent, recurse
upward.  The collected names are deepest-first. -/
def get_current_dir_walk (fs : FS) (cluster : Nat) (fuel : Nat) :
    Nat → Option (List Bytes × FS)
  | 0 => some ([], fs)
  | levels + 1 =>
    if cluster = fs.boot_sector.root_cluster then some ([], fs)
    else
      let dir : fat32_dir :=
        { is_open := true, start_cluster := cluster, current_cluster := cluster,
          position := 0, last_entry_read := false }
      match find_dotdot_loop fs dir 0 fuel with
      | none => none
      | some (none, fs1) => some ([], fs1)
      | some (some parent, fs1) =>
        let pdir : fat32_dir :=
          { is_open := true, start_cluster := parent, current_cluster := parent,
            position := 0, last_entry_read := false }
        match find_name_loop fs1 pdir cluster fuel with
        | none => none
        | some (none, fs2) => some ([], fs2)
        | some (some nm, fs2) =>
          match get_current_dir_walk fs2 parent fuel levels with
          | none => none
          | some (comps, fs3) => some (nm :: comps, fs3)

/-- strncat: append at most n bytes, where n is the size_t expression
path_len - strlen(dst) - 1 computed with wraparound. -/
def strncat_model (dst src : Bytes) (path_len : Nat) : Bytes :=
  dst ++ src.take ((path_len + U32 - (dst.length + 1)) % U32)

/-- The path reconstruction of fat32_get_current_dir: shallowest component
first, each preceded by '/'. -/
def build_path (comps : List Bytes) (path_len : Nat) : Bytes :=
  comps.reverse.foldl
    (fun acc c => strncat_model (strncat_model acc [47] path_len) c path_len) []

/-- fat32_get_current_dir: small-buffer guard, ready check, "/" at the
root, otherwise the upward walk and the path reconstruction (an empty
result is replaced by "/"). -/
def fat32_get_current_dir (fs : FS) (path_len : Nat) (fuel : Nat) :
    Option (fat32_error × Bytes × FS) :=
  if path_len < FAT32_MAX_PATH_LEN then some (.FAT32_ERROR_INVALID_PARAMETER, [], fs)
  else
    let rdy := fat32_is_ready fs
    if ¬ rdy.1 then some (rdy.2.mount_status, [], rdy.2)
    else if rdy.2.current_dir_cluster = rdy.2.boot_sector.root_cluster then
      some (.FAT32_OK, [47], rdy.2)
    else
      match get_current_dir_walk rdy.2 rdy.2.current_dir_cluster fuel 16 with
      | none => none
      | some (comps, fs2) =>
        let p := build_path comps path_len
        some (.FAT32_OK, (if p = [] then [47] else p), fs2)

/-- Allowed special characters in synthesized 8.3 names. -/
def shortname_symbol (c : Nat) : Bool :=
  c == 36 || c == 37 || c == 39 || c == 45 || c == 95 || c == 64 || c == 126 ||
  c == 96 || c == 33 || c == 40 || c == 41 || c == 123 || c == 125 || c == 94 ||
  c == 35 || c == 38

/-- Map one uppercased byte through the 8.3 alphabet; everything outside
it becomes an underscore and marks the conversion lossy. -/
def map_83_char (c : Nat) : Nat × Bool :=
  if (65 ≤ c ∧ c ≤ 90) ∨ (48 ≤ c ∧ c ≤ 57) ∨ shortname_symbol c then (c, false)
  else (95, true)

/-- The enumeration behind shortname_exists: compare the 8.3 form of every
entry of the directory with the candidate. -/
def shortname_exists_loop (fs : FS) (scan : fat32_dir) (shortname : Bytes) :
    Nat → Option (Bool × FS)
  | 0 => none
  | fuel + 1 =>
    match fat32_dir_read fs scan fuel with
    | none => none
    | some (e, ent, scan2, fs2) =>
      if e ≠ .FAT32_OK ∨ ent.filename = [] then some (false, fs2)
      else if filename_to_shortname ent.filename = shortname then some (true, fs2)
      else shortname_exists_loop fs2 scan2 shortname fuel

/-- shortname_exists: scan a copy of the directory handle from position 0. -/
def shortname_exists (fs : FS) (dir : fat32_dir) (shortname : Bytes) (fuel : Nat) :
    Option (Bool × FS) :=
  shortname_exists_loop fs { dir with position := 0 } shortname fuel

/-- The decimal digits of the ~N tail (snprintf "~%d"). -/
def tail_bytes (n : Nat) : Bytes := 126 :: (Nat.toDigits 10 n).map Char.toNat

/-- The numeric-tail loop of unique_shortname: try ~1 up to ~999999,
truncating the base to 8 - len(tail) characters, until no collision. -/
def unique_tail_loop (fs : FS) (dir : fat32_dir) (base ext : Bytes) (n : Nat) (fuel : Nat) :
    Option (fat32_error × Bytes × FS) :=
  if n ≥ 1000000 then some (.FAT32_ERROR_DISK_FULL, [], fs)
  else
    let tail := tail_bytes n
    let base_len := min (8 - tail.length) base.length
    let candidate := base.take base_len ++ tail ++
      List.replicate (8 - (base_len + tail.length)) 32 ++
      ext ++ List.replicate (3 - ext.length) 32
    match shortname_exists fs dir candidate fuel with
    | none => none
    | some (true, fs1) => unique_tail_loop fs1 dir base ext (n + 1) fuel
    | some (false, fs1) => some (.FAT32_OK, candidate, fs1)
termination_by 1000000 - n

/-- unique_shortname: uppercase, strip spaces and leading dots, split at
the last dot, map base and extension through the 8.3 alphabet (at most 8
and 3 characters, flagging lossy replacements), and append a numeric
tail when the conversion was lossy, the lengths overflow, or the plain
candidate already exists in the directory. -/
def unique_shortname (fs : FS) (dir : fat32_dir) (longname : Bytes) (fuel : Nat) :
    Option (fat32_error × Bytes × FS) :=
  let upper := (longname.take FAT32_MAX_FILENAME_LEN).map toupperByte
  let temp := upper.filter (· ≠ 32)
  let p := temp.dropWhile (· = 46)
  let parts := match lastDotSplit p with
    | some (b, a) => (b, a)
    | none => (p, [])
  let baseMapped := (parts.1.take 8).map map_83_char
  let base := baseMapped.map (·.1)
  let extMapped := (parts.2.take 3).map map_83_char
  let ext := extMapped.map (·.1)
  let lossy := baseMapped.any (·.2) || extMapped.any (·.2)
  let name_len := base.length
  let ext_len := ext.length
  let candidate := base ++ List.replicate (8 - base.length) 32 ++
    ext ++ List.replicate (3 - ext.length) 32
  if lossy = true ∨ name_len > 8 ∨ ext_len > 3 then unique_tail_loop fs dir base ext 1 fuel
  else
    match shortname_exists fs dir candidate fuel with
    | none => none
    | some (true, fs1) => unique_tail_loop fs1 dir base ext 1 fuel
    | some (false, fs1) => some (.FAT32_OK, candidate, fs1)

/-- Bytes of a string literal (ASCII). -/
def s2b (s : String) : Bytes := s.data.map Char.toNat

/-- Sector built from a byte list, zero beyond it. -/
def sec_of_list (l : Bytes) : Sector := fun i => l.getD i 0

/-- Sector built from sparse (index, byte) pairs, zero elsewhere. -/
def sec_of_pairs (l : List (Nat × Nat)) : Sector := fun i => (l.lookup i).getD 0

/-- The 32 on-disk bytes of an 8.3 directory slot with zero timestamps. -/
def mk_dirent (name : Bytes) (attr clus size : Nat) : Bytes :=
  name ++ [attr, 0, 0, 0, 0, 0, 0, 0, 0] ++
  [clus / 65536 % 256, clus / 16777216 % 256] ++ [0, 0, 0, 0] ++
  [clus % 256, clus / 256 % 256] ++
  [size % 256, size / 256 % 256, size / 65536 % 256, size / 16777216 % 256]

/-- Boot sector of the test volume: raw BPB, 512-byte sectors, one sector
per cluster, 1 reserved sector, one FAT of 512 sectors, 66038 total
sectors, root cluster 2. -/
def test_boot_sector : Sector :=
  sec_of_pairs [(0, 0xEB), (12, 2), (13, 1), (14, 1), (16, 1),
                (32, 0xF6), (33, 1), (34, 1), (37, 2), (44, 2),
                (510, 0x55), (511, 0xAA)]

/-- First FAT sector of the test volume: clusters 2..5 are end-of-chain. -/
def test_fat_sector : Sector :=
  sec_of_pairs [(8, 0xF8), (9, 0xFF), (10, 0xFF), (11, 0x0F),
                (12, 0xF8), (13, 0xFF), (14, 0xFF), (15, 0x0F),
                (16, 0xF8), (17, 0xFF), (18, 0xFF), (19, 0x0F),
                (20, 0xF8), (21, 0xFF), (22, 0xFF), (23, 0x0F)]

/-- Root directory sector (cluster 2): a file "x" whose start cluster is
0, a file "hi.txt" of 3 bytes at cluster 3, and a directory "sub" at
cluster 4. -/
def test_root_sector : Sector :=
  sec_of_list (mk_dirent (s2b "X          ") 0x20 0 0 ++
               mk_dirent (s2b "HI      TXT") 0x20 3 3 ++
               mk_dirent (s2b "SUB        ") 0x10 4 0)

/-- Directory sector of "sub" (cluster 4): ".", ".." (parent is the root,
stored as 0) and a file "y" at cluster 5. -/
def test_sub_sector : Sector :=
  sec_of_list (mk_dirent (s2b ".          ") 0x10 4 0 ++
               mk_dirent (s2b "..         ") 0x10 0 0 ++
               mk_dirent (s2b "Y          ") 0x20 5 0)

/-- Data sector of "hi.txt" (cluster 3). -/
def test_data_sector : Sector := sec_of_list [72, 105, 10]

/-- The test volume: boot sector at LBA 0, FAT from sector 1, data region
from sector 513 (cluster 2). -/
def test_disk : Disk := fun lba =>
  if lba = 0 then test_boot_sector
  else if lba = 1 then test_fat_sector
  else if lba = 513 then test_root_sector
  else if lba = 514 then test_data_sector
  else if lba = 515 then test_sub_sector
  else zero_buf

/-- Captured boot parameters of the test volume. -/
def test_boot : fat32_boot_sector :=
  { bytes_per_sector := 512, sectors_per_cluster := 1, reserved_sectors := 1,
    num_fats := 1, fat_size_16 := 0, fat_size_32 := 512,
    total_sectors_32 := 66038, root_cluster := 2, fat32_info := 0 }

/-- The mounted test filesystem with the root as current directory. -/
def testFS : FS :=
  { card_present := true, fat32_mounted := true, mount_status := .FAT32_OK,
    boot_sector := test_boot, volume_start_block := 0, first_data_sector := 513,
    data_region_sectors := 65526, cluster_count := 65526, bytes_per_cluster := 512,
    current_dir_cluster := 2, disk := test_disk }

/-- The test filesystem with "sub" as current directory. -/
def testFS_sub : FS := { testFS with current_dir_cluster := 4 }

/-- The test filesystem before mounting. -/
def testFS_unmounted : FS :=
  { testFS with fat32_mounted := false, mount_status := .FAT32_ERROR_NO_CARD,
                volume_start_block := 0, first_data_sector := 0,
                data_region_sectors := 0, cluster_count := 0,
                bytes_per_cluster := 0, current_dir_cluster := 0 }

/-- An open handle on the root directory of the test volume. -/
def test_root_dir : fat32_dir :=
  { is_open := true, start_cluster := 2, current_cluster := 2,
    position := 0, last_entry_read := false }

/-- Card present, mounted, status OK: the state in which fat32_is_ready
is the identity. -/
abbrev Ready (fs : FS) : Prop :=
  fs.card_present = true ∧ fs.fat32_mounted = true ∧ fs.mount_status = .FAT32_OK

/-- find_entry without its threaded state (reads leave the state
unchanged under Ready); used to phrase hypotheses decidably. -/
def find_entry_res (fs : FS) (path : Bytes) (fuel : Nat) :
    Option (fat32_error × fat32_entry) :=
  (find_entry fs path fuel).map (fun r => (r.1, r.2.1))

/-- fat32_dir_open without its threaded state. -/
def dir_open_res (fs : FS) (path : Bytes) (fuel : Nat) :
    Option (fat32_error × fat32_dir) :=
  (fat32_dir_open fs path fuel).map (fun r => (r.1, r.2.1))

/-- dir_empty_check without its threaded state. -/
def empty_check_res (fs : FS) (dir : fat32_dir) (fuel : Nat) : Option Bool :=
  (dir_empty_check fs dir fuel).map (·.1)

/-- The component list of the upward walk, without the threaded state. -/
def walk_comps (fs : FS) (fuel : Nat) : Option (List Bytes) :=
  (get_current_dir_walk fs fs.current_dir_cluster fuel 16).map (·.1)

/-- Cluster-chain coverage of a read request: starting in cluster cur at
byte position pos, the FAT provides a valid next cluster at every
cluster boundary the fat32_file_read loop will cross before n bytes are
delivered.  Mirrors the sector-chunk stepping of the loop. -/
def read_covers (fs : FS) (cur pos n : Nat) : Bool :=
  if h : n = 0 then true
  else
    let bis := pos % fs.bytes_per_cluster % FAT32_SECTOR_SIZE
    let btc := min (FAT32_SECTOR_SIZE - bis) n
    if (pos + btc) % fs.bytes_per_cluster = 0 ∧ btc < n then
      decide ((read_cluster_fat_entry fs cur).1 = .FAT32_OK) &&
      decide ((read_cluster_fat_entry fs cur).2 < FAT32_FAT_ENTRY_EOC) &&
      read_covers fs (read_cluster_fat_entry fs cur).2 (pos + btc) (n - btc)
    else read_covers fs cur (pos + btc) (n - btc)
termination_by n
decreasing_by
  all_goals
    simp only [FAT32_SECTOR_SIZE]
    have hb : pos % fs.bytes_per_cluster % 512 < 512 := Nat.mod_lt _ (by omega)
    omega


/-- The volume-relative FAT sector holding the entry of a cluster, as the
code computes it (uint32 offset arithmetic). -/
def fat_entry_sector (fs : FS) (c : Nat) : Nat :=
  fs.boot_sector.reserved_sectors + c * 4 % U32 / FAT32_SECTOR_SIZE

/-- The byte offset of a cluster's FAT entry within its FAT sector. -/
def fat_entry_offset (c : Nat) : Nat := c * 4 % U32 % FAT32_SECTOR_SIZE

/-- The on-disk 32-bit FAT word of a cluster. -/
def fat_word (fs : FS) (c : Nat) : Nat :=
  word32At (fs.disk (fs.volume_start_block + fat_entry_sector fs c)) (fat_entry_offset c)

set_option maxRecDepth 1000000

theorem ready_is_ready (fs : FS) (h : Ready fs) : fat32_is_ready fs = (true, fs) := by
  obtain ⟨h1, h2, h3⟩ := h
  simp [fat32_is_ready, sd_card_present, h1, h2, h3]

theorem mount_scan_err_ne_ok (fs : FS) (s : Sector) (l : List Nat) (e : fat32_error)
    (h : mount_scan fs s l = .err e) : e ≠ .FAT32_OK := by
  induction l with
  | nil => simp [mount_scan] at h
  | cons i rest ih =>
    unfold mount_scan at h
    simp only [] at h
    split at h
    · exact ih h
    · split at h
      · split at h
        · rename_i hrb
          cases h
          exact hrb
        · cases h
      · exact ih h

theorem mount_finish_ok_mounted (fs : FS) (s : Sector) :
    (mount_finish fs s).1 = .FAT32_OK → ((mount_finish fs s).2).fat32_mounted = true := by
  unfold mount_finish
  simp only []
  split
  · intro h
    simp_all
  · split
    · intro h
      simp_all
    · intro _
      rfl

theorem mount_finish_card (fs : FS) (s : Sector) :
    ((mount_finish fs s).2).card_present = fs.card_present := by
  unfold mount_finish
  simp only []
  split
  · rfl
  · split <;> rfl

theorem mount_ok_mounted (fs : FS) :
    (fat32_mount fs).1 = .FAT32_OK → ((fat32_mount fs).2).fat32_mounted = true := by
  unfold fat32_mount
  simp only []
  split
  · intro h; simp_all
  · split
    · intro _; simp_all
    · split
      · intro h; rename_i hinit; exact absurd h hinit
      · split
        · intro h; rename_i hrb; exact absurd h hrb
        · split
          · split
            · intro h; rename_i hscan; exact absurd h (mount_scan_err_ne_ok _ _ _ _ hscan)
            · intro h; simp_all
            · split
              · intro h; simp_all
              · exact mount_finish_ok_mounted _ _
          · split
            · exact mount_finish_ok_mounted _ _
            · intro h; simp_all

theorem mount_card (fs : FS) : ((fat32_mount fs).2).card_present = fs.card_present := by
  unfold fat32_mount
  simp only []
  split
  · simp [fat32_unmount]
  · split
    · rfl
    · split
      · rfl
      · split
        · rfl
        · split
          · split
            · rfl
            · rfl
            · split
              · rfl
              · exact mount_finish_card _ _
          · split
            · exact mount_finish_card _ _
            · rfl

theorem mount_when_mounted (gs : FS) (hc : sd_card_present gs = true)
    (hm : gs.fat32_mounted = true) : fat32_mount gs = (.FAT32_OK, gs) := by
  unfold fat32_mount
  simp [hc, hm]

/-- Claim C7: mount is idempotent; once fat32_mount has succeeded and the
card is still present, a second fat32_mount returns OK and leaves the
whole mount state (boot parameters, geometry, volume_start_block,
current_dir_cluster, mounted flag) unchanged. -/
theorem c7_mount_idempotent (fs : FS) (hc : sd_card_present fs = true)
    (h : (fat32_mount fs).1 = .FAT32_OK) :
    fat32_mount ((fat32_mount fs).2) = (.FAT32_OK, (fat32_mount fs).2) := by
  have hm : ((fat32_mount fs).2).fat32_mounted = true := mount_ok_mounted fs h
  have hc2 : sd_card_present ((fat32_mount fs).2) = true := by
    simpa [sd_card_present, mount_card] using hc
  exact mount_when_mounted _ hc2 hm

/-- Witness for C7 on the concrete test volume. -/
theorem c7_mount_idempotent_witness :
    sd_card_present testFS_unmounted = true ∧
    (fat32_mount testFS_unmounted).1 = .FAT32_OK ∧
    fat32_mount ((fat32_mount testFS_unmounted).2) =
      (.FAT32_OK, (fat32_mount testFS_unmounted).2) :=
  ⟨by decide, by decide, c7_mount_idempotent testFS_unmounted (by decide) (by decide)⟩

/-- Claim C9: fat32_file_close and fat32_dir_close return OK for every
argument including a null pointer and a closed handle; an open handle is
zeroed, a closed one is left unchanged, and the disk is never touched
(the functions do not take the filesystem state at all). -/
theorem c9_close_total (x : fat32_file) (y : fat32_dir) :
    fat32_file_close none = (.FAT32_OK, none) ∧
    fat32_dir_close none = (.FAT32_OK, none) ∧
    fat32_file_close (some x) = (.FAT32_OK, some (if x.is_open then zero_file else x)) ∧
    fat32_dir_close (some y) = (.FAT32_OK, some (if y.is_open then zero_dir else y)) := by
  refine ⟨rfl, rfl, ?_, ?_⟩
  · by_cases hx : x.is_open <;> simp [fat32_file_close, hx]
  · by_cases hy : y.is_open <;> simp [fat32_dir_close, hy]

/-- Claim C1: evaluation of unique_shortname at the spec's own scenario.
In an empty-collision directory the clean name "A really long name.dat",
whose base exceeds 8 characters before truncation, yields the packed
shortname "AREALLYLDAT" with no numeric tail: the base is truncated
while it is copied, so the length tests in the tail condition never
fire, contradicting the claim (and spec scenario 4). -/
theorem c1_unique_shortname_no_tail_eval :
    (unique_shortname testFS test_root_dir (s2b "A really long name.dat") 64).map
      (fun r => (r.1, r.2.1)) = some (.FAT32_OK, s2b "AREALLYLDAT") ∧
    (s2b "AREALLYLDAT").all (fun c => c ≠ 126) = true := by decide

/-- Counterexample for C2: a 13-character name produces one 13-codeunit
LFN group, not the ceil((len+1)/13) = 2 groups the claim states. -/
theorem c2_lfn_group_count_counterexample :
    (filename_to_lfn (s2b "abcdefghijklm")).1 = 1 ∧
    ((s2b "abcdefghijklm").length + 1 + 12) / 13 = 2 ∧
    (filename_to_lfn (s2b "abcdefghijklm")).1 ≠
      ((s2b "abcdefghijklm").length + 1 + 12) / 13 := by decide

/-- Counterexample for C3: fat32_file_delete performs no path-length
check; on a 257-byte path it resolves the silently truncated path and
returns FileNotFound after reading the directory, not InvalidPath. -/
theorem c3_overlong_path_counterexample :
    (List.replicate 257 97 : Bytes).length > FAT32_MAX_PATH_LEN ∧
    (fat32_file_delete testFS (List.replicate 257 97) 64).map (·.1) =
      some .FAT32_ERROR_FILE_NOT_FOUND ∧
    fat32_error.FAT32_ERROR_FILE_NOT_FOUND ≠ .FAT32_ERROR_INVALID_PATH := by decide

theorem list_getD_range_map {α : Type} (f : Nat → α) (n i : Nat) (d : α) :
    ((List.range n).map f).getD i d = if i < n then f i else d := by
  rcases Nat.lt_or_ge i n with h | h
  · rw [if_pos h]
    rw [List.getD_eq_getElem?_getD]
    simp [List.getElem?_map, List.getElem?_range h]
  · rw [if_neg (by omega)]
    apply List.getD_eq_default
    simp [h]

theorem lfn_ch_eq (nm : Bytes) (j : Nat) :
    lfn_ch nm j = (if j < nm.length then nm.getD j 0 % 256
                   else if j = nm.length then 0 else 65535) := by
  unfold lfn_ch utf8_to_lfn_ch utf8_to_utf16
  rcases Nat.lt_trichotomy j nm.length with hl | he | hg
  · rw [if_neg (by omega), if_neg (by omega), if_pos hl]
  · rw [if_pos he, if_neg (by omega), if_pos he]
  · rw [if_neg (by omega), if_pos hg, if_neg (by omega), if_neg (by omega)]

theorem lfn_flat_eq (nm : Bytes) (q : Nat) :
    lfn_codeunits (mk_lfn_part nm q) =
      (List.range 13).map (fun k => lfn_ch nm (13 * q + k)) := by
  rfl

/-- Claim C2 (amended): filename_to_lfn produces ceil(len/13), that is
(len + 12) / 13, groups of 13 UTF-16 codeunits; within the groups the
codeunit at position j is the name character for j < len, the 0x0000
terminator exactly at j = len, and 0xFFFF padding beyond it (when len is
a multiple of 13 the groups hold no terminator or padding). -/
theorem c2_filename_to_lfn_layout (nm : Bytes) (h : 1 ≤ nm.length) :
    (filename_to_lfn nm).1 = (nm.length + 12) / 13 ∧
    (filename_to_lfn nm).2.length = (filename_to_lfn nm).1 ∧
    (∀ i, i < (filename_to_lfn nm).1 →
      (lfn_codeunits ((filename_to_lfn nm).2.getD i (mk_lfn_part [] 0))).length = 13) ∧
    (∀ j, j < 13 * (filename_to_lfn nm).1 →
      (lfn_codeunits ((filename_to_lfn nm).2.getD (j / 13) (mk_lfn_part [] 0))).getD (j % 13) 0 =
        (if j < nm.length then nm.getD j 0 % 256
         else if j = nm.length then 0 else 65535)) := by
  refine ⟨rfl, by simp [filename_to_lfn], ?_, ?_⟩
  · intro i hi
    simp only [filename_to_lfn] at hi ⊢
    rw [list_getD_range_map, if_pos hi, lfn_flat_eq]
    simp
  · intro j hj
    simp only [filename_to_lfn] at hj ⊢
    have hq : j / 13 < (nm.length + 12) / 13 := by omega
    rw [list_getD_range_map, if_pos hq, lfn_flat_eq, list_getD_range_map,
      if_pos (Nat.mod_lt j (by norm_num))]
    rw [show 13 * (j / 13) + j % 13 = j from by omega]
    exact lfn_ch_eq nm j

/-- Witness for C2 at a concrete 9-character name. -/
theorem c2_filename_to_lfn_layout_witness :
    1 ≤ (s2b "hello.txt").length ∧
    ((filename_to_lfn (s2b "hello.txt")).1 = ((s2b "hello.txt").length + 12) / 13 ∧
     (filename_to_lfn (s2b "hello.txt")).2.length = (filename_to_lfn (s2b "hello.txt")).1 ∧
     (∀ i, i < (filename_to_lfn (s2b "hello.txt")).1 →
       (lfn_codeunits ((filename_to_lfn (s2b "hello.txt")).2.getD i (mk_lfn_part [] 0))).length = 13) ∧
     (∀ j, j < 13 * (filename_to_lfn (s2b "hello.txt")).1 →
       (lfn_codeunits ((filename_to_lfn (s2b "hello.txt")).2.getD (j / 13)
           (mk_lfn_part [] 0))).getD (j % 13) 0 =
         (if j < (s2b "hello.txt").length then (s2b "hello.txt").getD j 0 % 256
          else if j = (s2b "hello.txt").length then 0 else 65535))) :=
  ⟨by decide, c2_filename_to_lfn_layout (s2b "hello.txt") (by decide)⟩

theorem word32At_lt (s : Sector) (i : Nat) : word32At s i < U32 := by
  unfold word32At byteAt U32
  have h0 : s i % 256 < 256 := Nat.mod_lt _ (by norm_num)
  have h1 : s (i + 1) % 256 < 256 := Nat.mod_lt _ (by norm_num)
  have h2 : s (i + 2) % 256 < 256 := Nat.mod_lt _ (by norm_num)
  have h3 : s (i + 3) % 256 < 256 := Nat.mod_lt _ (by norm_num)
  omega

theorem word32At_setWord32 (s : Sector) (i v : Nat) :
    word32At (setWord32 s i v) i = v % U32 := by
  have e0 : setWord32 s i v i = v % 256 := by simp [setWord32]
  have e1 : setWord32 s i v (i + 1) = v / 256 % 256 := by simp [setWord32]
  have e2 : setWord32 s i v (i + 2) = v / 65536 % 256 := by simp [setWord32]
  have e3 : setWord32 s i v (i + 3) = v / 16777216 % 256 := by simp [setWord32]
  unfold word32At byteAt U32
  rw [e0, e1, e2, e3]
  omega

theorem rmw_word_lt (a v : Nat) (ha : a < U32) :
    ((a &&& 0xF0000000) ||| (v &&& 0x0FFFFFFF)) < U32 := by
  have h1 : (a &&& 0xF0000000) < 2 ^ 32 := by
    calc a &&& 0xF0000000 ≤ a := Nat.and_le_left
    _ < 2 ^ 32 := by simpa [U32] using ha
  have h2 : (v &&& 0x0FFFFFFF) < 2 ^ 32 := by
    calc v &&& 0x0FFFFFFF ≤ 0x0FFFFFFF := Nat.and_le_right
    _ < 2 ^ 32 := by norm_num
  simpa [U32] using Nat.or_lt_two_pow h1 h2

theorem write_cluster_fat_entry_eq (fs : FS) (c v : Nat)
    (hp : fs.card_present = true) (hc2 : 2 ≤ c) :
    write_cluster_fat_entry fs c v =
      (.FAT32_OK,
        { fs with disk := fun k =>
            if k = fs.volume_start_block + fat_entry_sector fs c then
              (setWord32 (fs.disk (fs.volume_start_block + fat_entry_sector fs c))
                (fat_entry_offset c)
                ((fat_word fs c &&& 0xF0000000) ||| (v &&& 0x0FFFFFFF)))
            else fs.disk k }) := by
  unfold write_cluster_fat_entry read_sector write_sector sd_read_block sd_write_block
    fat_word fat_entry_sector fat_entry_offset
  rw [if_neg (by omega)]
  simp [hp]

/-- Claim C4: for every cluster c of at least 2 on a volume whose card is
present, read_cluster_fat_entry returns the on-disk 32-bit FAT word
(sector reserved + (c*4)/512, offset (c*4)%512) masked to its low 28
bits; write_cluster_fat_entry succeeds and leaves that word equal to
(old & 0xF0000000) | (v & 0x0FFFFFFF), preserving the top 4 bits; and
for c below 2 both return InvalidParameter with no device write. -/
theorem c4_fat_entry_rmw (fs : FS) (c v : Nat)
    (hp : fs.card_present = true) (hc2 : 2 ≤ c) :
    (read_cluster_fat_entry fs c = (.FAT32_OK, fat_word fs c &&& 0x0FFFFFFF)) ∧
    ((write_cluster_fat_entry fs c v).1 = .FAT32_OK ∧
      fat_word ((write_cluster_fat_entry fs c v).2) c =
        (fat_word fs c &&& 0xF0000000) ||| (v &&& 0x0FFFFFFF)) ∧
    (∀ c0, c0 < 2 →
      read_cluster_fat_entry fs c0 = (.FAT32_ERROR_INVALID_PARAMETER, 0) ∧
      write_cluster_fat_entry fs c0 v = (.FAT32_ERROR_INVALID_PARAMETER, fs)) := by
  refine ⟨?_, ⟨?_, ?_⟩, ?_⟩
  · unfold read_cluster_fat_entry read_sector sd_read_block fat_word fat_entry_sector
      fat_entry_offset
    rw [if_neg (by omega)]
    simp [hp]
  · rw [write_cluster_fat_entry_eq fs c v hp hc2]
  · rw [write_cluster_fat_entry_eq fs c v hp hc2]
    unfold fat_word fat_entry_sector fat_entry_offset
    simp only []
    rw [if_pos trivial, word32At_setWord32]
    exact Nat.mod_eq_of_lt (rmw_word_lt _ _ (word32At_lt _ _))
  · intro c0 hc0
    constructor
    · unfold read_cluster_fat_entry
      rw [if_pos hc0]
    · unfold write_cluster_fat_entry
      rw [if_pos hc0]

/-- Witness for C4 on the concrete test volume at cluster 3. -/
theorem c4_fat_entry_rmw_witness :
    (testFS.card_present = true ∧ 2 ≤ 3) ∧
    (read_cluster_fat_entry testFS 3 = (.FAT32_OK, fat_word testFS 3 &&& 0x0FFFFFFF)) ∧
    ((write_cluster_fat_entry testFS 3 5).1 = .FAT32_OK ∧
      fat_word ((write_cluster_fat_entry testFS 3 5).2) 3 =
        (fat_word testFS 3 &&& 0xF0000000) ||| (5 &&& 0x0FFFFFFF)) ∧
    (∀ c0, c0 < 2 →
      read_cluster_fat_entry testFS c0 = (.FAT32_ERROR_INVALID_PARAMETER, 0) ∧
      write_cluster_fat_entry testFS c0 5 = (.FAT32_ERROR_INVALID_PARAMETER, testFS)) :=
  ⟨⟨by decide, by decide⟩, c4_fat_entry_rmw testFS 3 5 (by decide) (by decide)⟩

/-- Claim C3 (amended): only fat32_file_open and fat32_dir_open guard the
path length, failing InvalidPath before any ready check or disk access
(the state is returned untouched and the result is the same for every
disk), and fat32_set_current_dir inherits the guard through
fat32_dir_open; fat32_file_create, fat32_file_delete, fat32_dir_create
and fat32_dir_delete perform no such check (see the counterexample). -/
theorem c3_overlong_path_guards (fs : FS) (path : Bytes) (fuel : Nat)
    (h : path.length > FAT32_MAX_PATH_LEN) :
    (fat32_file_open fs path fuel).map (fun r => (r.1, r.2.2)) =
      some (.FAT32_ERROR_INVALID_PATH, fs) ∧
    (fat32_dir_open fs path fuel).map (fun r => (r.1, r.2.2)) =
      some (.FAT32_ERROR_INVALID_PATH, fs) ∧
    (Ready fs → fat32_set_current_dir fs path fuel = some (.FAT32_ERROR_INVALID_PATH, fs)) := by
  have hne : path ≠ [] := by
    intro e
    rw [e] at h
    simp [FAT32_MAX_PATH_LEN] at h
  refine ⟨?_, ?_, ?_⟩
  · unfold fat32_file_open
    rw [if_neg hne, if_pos h]
    rfl
  · unfold fat32_dir_open
    rw [if_pos h]
    rfl
  · intro hr
    unfold fat32_set_current_dir
    rw [if_neg hne, ready_is_ready fs hr]
    simp only []
    unfold fat32_dir_open
    rw [if_pos h]
    simp

/-- Witness for C3 on the concrete test volume with a 257-byte path. -/
theorem c3_overlong_path_guards_witness :
    (List.replicate 257 97 : Bytes).length > FAT32_MAX_PATH_LEN ∧ Ready testFS ∧
    (fat32_file_open testFS (List.replicate 257 97) 64).map (fun r => (r.1, r.2.2)) =
      some (.FAT32_ERROR_INVALID_PATH, testFS) ∧
    (fat32_dir_open testFS (List.replicate 257 97) 64).map (fun r => (r.1, r.2.2)) =
      some (.FAT32_ERROR_INVALID_PATH, testFS) ∧
    fat32_set_current_dir testFS (List.replicate 257 97) 64 =
      some (.FAT32_ERROR_INVALID_PATH, testFS) :=
  ⟨by decide, by decide,
    (c3_overlong_path_guards testFS (List.replicate 257 97) 64 (by decide)).1,
    (c3_overlong_path_guards testFS (List.replicate 257 97) 64 (by decide)).2.1,
    (c3_overlong_path_guards testFS (List.replicate 257 97) 64 (by decide)).2.2 (by decide)⟩

theorem dir_read_ready (fs : FS) (d : fat32_dir) (fuel : Nat) (h : Ready fs) :
    fat32_dir_read fs d fuel =
      if ¬ d.is_open then some (.FAT32_ERROR_READ_FAILED, zero_entry, d, fs)
      else if d.last_entry_read then some (.FAT32_OK, zero_entry, d, fs)
      else (dir_read_loop fs d zero_buf 0 fuel).map (fun r => (r.1, r.2.1, r.2.2, fs)) := by
  unfold fat32_dir_read
  rw [ready_is_ready fs h]
  simp

theorem dir_read_fs_eq (fs : FS) (d : fat32_dir) (fuel : Nat) (h : Ready fs) :
    ∀ r, fat32_dir_read fs d fuel = some r → r.2.2.2 = fs := by
  intro r hr
  rw [dir_read_ready fs d fuel h] at hr
  split at hr
  · cases hr; rfl
  · split at hr
    · cases hr; rfl
    · rcases Option.map_eq_some'.mp hr with ⟨a, _, rfl⟩
      rfl

theorem find_entry_scan_fs_eq (fs : FS) (h : Ready fs) (tok : Bytes) (isLast : Bool) :
    ∀ fuel d r, find_entry_scan fs d tok isLast fuel = some r → r.2 = fs := by
  intro fuel
  induction fuel with
  | zero => intro d r hr; simp [find_entry_scan] at hr
  | succ n ih =>
    intro d r hr
    rcases hd : fat32_dir_read fs d n with _ | ⟨e, ent, d2, fs2⟩
    · simp only [find_entry_scan, hd] at hr
      exact Option.noConfusion hr
    · have hfs2 : fs2 = fs := dir_read_fs_eq fs d n h _ hd
      subst hfs2
      simp only [find_entry_scan, hd] at hr
      split at hr
      · cases hr; rfl
      · split at hr
        · split at hr
          · cases hr; rfl
          · split at hr
            · cases hr; rfl
            · exact ih d2 r hr
        · exact ih d2 r hr

theorem find_entry_go_fs_eq (fs : FS) (h : Ready fs) (fuel : Nat) :
    ∀ toks cluster r, find_entry_go fs cluster fuel toks = some r → r.2.2 = fs := by
  intro toks
  induction toks with
  | nil => intro cluster r hr; cases hr; rfl
  | cons tok rest ih =>
    intro cluster r hr
    rcases hs : find_entry_scan fs
        { is_open := true, start_cluster := cluster, current_cluster := cluster,
          position := 0, last_entry_read := false } tok (decide (rest = [])) fuel
      with _ | ⟨out, fs2⟩
    · simp only [find_entry_go, hs] at hr
      exact Option.noConfusion hr
    · have hfs2 : fs2 = fs :=
        find_entry_scan_fs_eq fs h tok (decide (rest = [])) fuel _ _ hs
      subst hfs2
      cases out with
      | last ent =>
        simp only [find_entry_go, hs] at hr
        cases hr; rfl
      | descend c =>
        simp only [find_entry_go, hs] at hr
        exact ih c r hr
      | missing =>
        simp only [find_entry_go, hs] at hr
        split at hr
        · cases hr; rfl
        · cases hr; rfl

theorem find_entry_fs_eq (fs : FS) (h : Ready fs) (path : Bytes) (fuel : Nat) :
    ∀ r, find_entry fs path fuel = some r → r.2.2 = fs := by
  intro r hr
  unfold find_entry at hr
  split at hr
  · cases hr; rfl
  · split at hr
    · cases hr; rfl
    · exact find_entry_go_fs_eq fs h fuel _ _ r hr

theorem dir_open_fs_eq (fs : FS) (h : Ready fs) (path : Bytes) (fuel : Nat) :
    ∀ r, fat32_dir_open fs path fuel = some r → r.2.2 = fs := by
  intro r hr
  unfold fat32_dir_open at hr
  rw [ready_is_ready fs h] at hr
  simp only [] at hr
  split at hr
  · cases hr; rfl
  · split at hr
    · cases hr; rfl
    · rcases hf : find_entry fs path fuel with _ | a
      · simp only [hf] at hr
        exact Option.noConfusion hr
      · have := find_entry_fs_eq fs h path fuel a hf
        simp only [hf] at hr
        split at hr
        · cases hr
          simpa using this
        · split at hr
          · cases hr
            simpa using this
          · cases hr
            simpa using this

theorem dir_empty_check_fs_eq (fs : FS) (h : Ready fs) :
    ∀ fuel d r, dir_empty_check fs d fuel = some r → r.2 = fs := by
  intro fuel
  induction fuel with
  | zero => intro d r hr; simp [dir_empty_check] at hr
  | succ n ih =>
    intro d r hr
    rcases hd : fat32_dir_read fs d n with _ | ⟨e, ent, d2, fs2⟩
    · simp only [dir_empty_check, hd] at hr
      exact Option.noConfusion hr
    · have hfs2 : fs2 = fs := dir_read_fs_eq fs d n h _ hd
      subst hfs2
      simp only [dir_empty_check, hd] at hr
      split at hr
      · cases hr; rfl
      · split at hr
        · cases hr; rfl
        · exact ih d2 r hr

theorem dir_delete_ready (fs : FS) (path : Bytes) (fuel : Nat) (h : Ready fs)
    (hp : path ≠ []) : fat32_dir_delete fs path fuel = delete_entry fs path true fuel := by
  unfold fat32_dir_delete
  rw [if_neg hp, ready_is_ready fs h]
  simp

theorem file_delete_ready (fs : FS) (path : Bytes) (fuel : Nat) (h : Ready fs)
    (hp : path ≠ []) : fat32_file_delete fs path fuel = delete_entry fs path false fuel := by
  unfold fat32_file_delete
  rw [if_neg hp, ready_is_ready fs h]
  simp

theorem find_entry_res_some (fs : FS) (h : Ready fs) (path : Bytes) (fuel : Nat)
    (e0 : fat32_error) (e : fat32_entry)
    (hfe : find_entry_res fs path fuel = some (e0, e)) :
    find_entry fs path fuel = some (e0, e, fs) := by
  unfold find_entry_res at hfe
  rcases Option.map_eq_some'.mp hfe with ⟨a, ha, hproj⟩
  have hfs : a.2.2 = fs := find_entry_fs_eq fs h path fuel a ha
  obtain ⟨a1, a2, a3⟩ := a
  simp only [Prod.mk.injEq] at hproj
  simp only [] at hfs
  rw [ha, hproj.1, hproj.2, hfs]

theorem dir_open_res_some (fs : FS) (h : Ready fs) (path : Bytes) (fuel : Nat)
    (e0 : fat32_error) (dh : fat32_dir)
    (ho : dir_open_res fs path fuel = some (e0, dh)) :
    fat32_dir_open fs path fuel = some (e0, dh, fs) := by
  unfold dir_open_res at ho
  rcases Option.map_eq_some'.mp ho with ⟨a, ha, hproj⟩
  have hfs : a.2.2 = fs := dir_open_fs_eq fs h path fuel a ha
  obtain ⟨a1, a2, a3⟩ := a
  simp only [Prod.mk.injEq] at hproj
  simp only [] at hfs
  rw [ha, hproj.1, hproj.2, hfs]

theorem empty_check_res_some (fs : FS) (h : Ready fs) (dh : fat32_dir) (fuel : Nat)
    (b : Bool) (he : empty_check_res fs dh fuel = some b) :
    dir_empty_check fs dh fuel = some (b, fs) := by
  unfold empty_check_res at he
  rcases Option.map_eq_some'.mp he with ⟨a, ha, hproj⟩
  have hfs : a.2 = fs := dir_empty_check_fs_eq fs h fuel dh a ha
  obtain ⟨a1, a2⟩ := a
  simp only [] at hproj hfs
  rw [ha, hproj, hfs]

/-- Claim C6: delete_entry rejects kind mismatches, and a directory found
non-empty by the enumeration is refused with DirNotEmpty; in all three
cases the returned state is exactly the input state, so no sector and no
FAT word was written. -/
theorem c6_delete_entry_guards (fs : FS) (path : Bytes) (fuel : Nat) (e : fat32_entry)
    (h : Ready fs) (hp : path ≠ [])
    (hfe : find_entry_res fs path fuel = some (.FAT32_OK, e)) :
    (e.attr &&& FAT32_ATTR_DIRECTORY = 0 →
      fat32_dir_delete fs path fuel = some (.FAT32_ERROR_NOT_A_DIRECTORY, fs)) ∧
    (e.attr &&& FAT32_ATTR_DIRECTORY ≠ 0 ∨ e.attr &&& FAT32_ATTR_VOLUME_ID ≠ 0 →
      fat32_file_delete fs path fuel = some (.FAT32_ERROR_NOT_A_FILE, fs)) ∧
    (∀ dh, e.attr &&& FAT32_ATTR_DIRECTORY ≠ 0 →
      dir_open_res fs path fuel = some (.FAT32_OK, dh) →
      empty_check_res fs dh fuel = some false →
      fat32_dir_delete fs path fuel = some (.FAT32_ERROR_DIR_NOT_EMPTY, fs)) := by
  have hfe2 : find_entry fs path fuel = some (.FAT32_OK, e, fs) :=
    find_entry_res_some fs h path fuel _ _ hfe
  refine ⟨?_, ?_, ?_⟩
  · intro hnd
    rw [dir_delete_ready fs path fuel h hp]
    unfold delete_entry
    rw [hfe2]
    simp [hnd]
  · intro hm
    rw [file_delete_ready fs path fuel h hp]
    unfold delete_entry
    rw [hfe2]
    rcases hm with hm | hm <;> simp [hm]
  · intro dh hnd hopen hempty
    have hopen2 : fat32_dir_open fs path fuel = some (.FAT32_OK, dh, fs) :=
      dir_open_res_some fs h path fuel _ _ hopen
    have hempty2 : dir_empty_check fs dh fuel = some (false, fs) :=
      empty_check_res_some fs h dh fuel _ hempty
    rw [dir_delete_ready fs path fuel h hp]
    unfold delete_entry
    rw [hfe2]
    simp only [hnd, hopen2, hempty2]
    simp [hnd]

/-- Witness for C6 on the concrete test volume: "/x" is a file (so
dir_delete refuses), "/sub" is a directory (so file_delete refuses) and
"/sub" holds an entry "y" (so dir_delete reports DirNotEmpty). -/
theorem c6_delete_entry_guards_witness :
    fat32_dir_delete testFS (s2b "/x") 64 = some (.FAT32_ERROR_NOT_A_DIRECTORY, testFS) ∧
    fat32_file_delete testFS (s2b "/sub") 64 = some (.FAT32_ERROR_NOT_A_FILE, testFS) ∧
    fat32_dir_delete testFS (s2b "/sub") 64 = some (.FAT32_ERROR_DIR_NOT_EMPTY, testFS) :=
  ⟨(c6_delete_entry_guards testFS (s2b "/x") 64
      ⟨[120], 32, 0, 0, 0, 0, 513, 0⟩ (by decide) (by decide) (by decide)).1 (by decide),
   (c6_delete_entry_guards testFS (s2b "/sub") 64
      ⟨s2b "sub", 16, 4, 0, 0, 0, 513, 64⟩ (by decide) (by decide) (by decide)).2.1
      (by decide),
   (c6_delete_entry_guards testFS (s2b "/sub") 64
      ⟨s2b "sub", 16, 4, 0, 0, 0, 513, 64⟩ (by decide) (by decide) (by decide)).2.2
      ⟨true, 4, 4, 0, false⟩ (by decide) (by decide) (by decide)⟩

/-- Claim C10: once the 8.3 slot has been freed on disk, delete_entry
returns OK whatever release_cluster_chain says; with a start cluster
below 2 the release fails InvalidParameter (leaving any state unchanged)
yet fat32_file_delete still reports OK. -/
theorem c10_delete_discards_release_error (fs : FS) (path : Bytes) (fuel : Nat)
    (e : fat32_entry) (h : Ready fs) (hp : path ≠ [])
    (hfe : find_entry_res fs path fuel = some (.FAT32_OK, e))
    (hnd : e.attr &&& FAT32_ATTR_DIRECTORY = 0)
    (hnv : e.attr &&& FAT32_ATTR_VOLUME_ID = 0)
    (hsc : e.start_cluster < 2) :
    (∃ fs2, fat32_file_delete fs path fuel = some (.FAT32_OK, fs2)) ∧
    (∀ gs : FS, release_cluster_chain gs e.start_cluster fuel =
      some (.FAT32_ERROR_INVALID_PARAMETER, gs)) := by
  have hfe2 : find_entry fs path fuel = some (.FAT32_OK, e, fs) :=
    find_entry_res_some fs h path fuel _ _ hfe
  have hrel : ∀ gs : FS, release_cluster_chain gs e.start_cluster fuel =
      some (.FAT32_ERROR_INVALID_PARAMETER, gs) := by
    intro gs
    unfold release_cluster_chain
    rw [if_pos hsc]
  refine ⟨?_, hrel⟩
  rw [file_delete_ready fs path fuel h hp]
  unfold delete_entry
  rw [hfe2]
  simp only [hnd, hnv]
  unfold delete_entry_finish read_sector write_sector sd_read_block sd_write_block
  simp only [h.1]
  rw [hrel]
  simp

/-- Witness for C10 on the concrete test volume: the file "/x" carries
start cluster 0, below 2. -/
theorem c10_delete_discards_release_error_witness :
    (∃ fs2, fat32_file_delete testFS (s2b "/x") 64 = some (.FAT32_OK, fs2)) ∧
    (∀ gs : FS, release_cluster_chain gs 0 64 =
      some (.FAT32_ERROR_INVALID_PARAMETER, gs)) :=
  c10_delete_discards_release_error testFS (s2b "/x") 64
    ⟨[120], 32, 0, 0, 0, 0, 513, 0⟩ (by decide) (by decide) (by decide)
    (by decide) (by decide) (by decide)

theorem read_sector_ok (fs : FS) (hp : fs.card_present = true) (s : Nat) :
    read_sector fs s = (.FAT32_OK, fs.disk (fs.volume_start_block + s)) := by
  simp [read_sector, sd_read_block, hp]

theorem file_read_loop_covers (fs : FS) (hp : fs.card_present = true) :
    ∀ n cur pos size total acc, total + n = size → read_covers fs cur pos n = true →
      ∃ c2 a2, fat32_file_read_loop fs cur pos size total acc =
        (.FAT32_OK, size, pos + n, c2, a2) := by
  intro n
  induction n using Nat.strong_induction_on with
  | _ n ih =>
    intro cur pos size total acc htot hcov
    by_cases h0 : n = 0
    · subst h0
      refine ⟨cur, acc, ?_⟩
      rw [fat32_file_read_loop, dif_neg (by omega)]
      have : total = size := by omega
      simp [this]
    · have htl : total < size := by omega
      have hbis : pos % fs.bytes_per_cluster % FAT32_SECTOR_SIZE < FAT32_SECTOR_SIZE :=
        Nat.mod_lt _ (by simp [FAT32_SECTOR_SIZE])
      have hst : size - total = n := by omega
      rw [read_covers, dif_neg h0] at hcov
      simp only [] at hcov
      rw [fat32_file_read_loop, dif_pos htl]
      simp only [read_sector_ok fs hp, hst, ne_eq, not_true_eq_false, if_false]
      split at hcov
      · rename_i hcr
        simp only [Bool.and_eq_true, decide_eq_true_eq] at hcov
        obtain ⟨⟨hokp, hltp⟩, hrest⟩ := hcov
        have hcond : (pos + min (FAT32_SECTOR_SIZE - pos % fs.bytes_per_cluster % FAT32_SECTOR_SIZE) n) %
              fs.bytes_per_cluster = 0 ∧
            total + min (FAT32_SECTOR_SIZE - pos % fs.bytes_per_cluster % FAT32_SECTOR_SIZE) n < size :=
          ⟨hcr.1, by omega⟩
        rw [if_pos hcond, if_neg (by push_neg; exact ⟨hokp, hltp⟩)]
        have hpn : pos + n =
            (pos + min (FAT32_SECTOR_SIZE - pos % fs.bytes_per_cluster % FAT32_SECTOR_SIZE) n) +
            (n - min (FAT32_SECTOR_SIZE - pos % fs.bytes_per_cluster % FAT32_SECTOR_SIZE) n) := by
          omega
        rw [hpn]
        exact ih (n - min (FAT32_SECTOR_SIZE - pos % fs.bytes_per_cluster % FAT32_SECTOR_SIZE) n)
          (by omega) _ _ _ _ _ (by omega) hrest
      · rename_i hcr
        have hcond : ¬ ((pos + min (FAT32_SECTOR_SIZE - pos % fs.bytes_per_cluster % FAT32_SECTOR_SIZE) n) %
              fs.bytes_per_cluster = 0 ∧
            total + min (FAT32_SECTOR_SIZE - pos % fs.bytes_per_cluster % FAT32_SECTOR_SIZE) n < size) := by
          intro hc
          exact hcr ⟨hc.1, by omega⟩
        rw [if_neg hcond]
        have hpn : pos + n =
            (pos + min (FAT32_SECTOR_SIZE - pos % fs.bytes_per_cluster % FAT32_SECTOR_SIZE) n) +
            (n - min (FAT32_SECTOR_SIZE - pos % fs.bytes_per_cluster % FAT32_SECTOR_SIZE) n) := by
          omega
        rw [hpn]
        exact ih (n - min (FAT32_SECTOR_SIZE - pos % fs.bytes_per_cluster % FAT32_SECTOR_SIZE) n)
          (by omega) _ _ _ _ _ (by omega) hcov

/-- Claim C5: fat32_file_read clamps the request to file_size - position.
At or beyond EOF it returns OK with zero bytes read and nothing changed;
otherwise, when the cluster chain covers the clamped request (so every
read the loop issues succeeds), it returns OK with bytes_read equal to
min(size, file_size - position), advancing the position by exactly that
amount; bytes past file_size are never delivered. -/
theorem c5_file_read_clamp (fs : FS) (file : fat32_file) (size : Nat)
    (h : Ready fs) (ho : file.is_open = true) :
    (file.file_size ≤ file.position →
      fat32_file_read fs file size = (.FAT32_OK, 0, [], file, fs)) ∧
    (file.position < file.file_size →
      read_covers fs file.current_cluster file.position
        (min size (file.file_size - file.position)) = true →
      (fat32_file_read fs file size).1 = .FAT32_OK ∧
      (fat32_file_read fs file size).2.1 = min size (file.file_size - file.position) ∧
      (fat32_file_read fs file size).2.2.2.1.position =
        file.position + min size (file.file_size - file.position) ∧
      (fat32_file_read fs file size).2.2.2.2 = fs) := by
  constructor
  · intro hle
    unfold fat32_file_read
    rw [ready_is_ready fs h]
    simp [ho, hle]
  · intro hlt hcov
    obtain ⟨c2, a2, hr⟩ := file_read_loop_covers fs h.1
      (min size (file.file_size - file.position)) file.current_cluster file.position
      (min size (file.file_size - file.position)) 0 [] (by omega) hcov
    unfold fat32_file_read
    rw [ready_is_ready fs h]
    simp [ho, hr, (show ¬ file.file_size ≤ file.position by omega)]

/-- Witness for C5: reading 16 bytes of the 3-byte file "hi.txt" on the
test volume delivers exactly 3 bytes. -/
theorem c5_file_read_clamp_witness :
    Ready testFS ∧
    (⟨true, 3, 3, 3, 0, 32, 513, 32⟩ : fat32_file).is_open = true ∧
    (⟨true, 3, 3, 3, 0, 32, 513, 32⟩ : fat32_file).position <
      (⟨true, 3, 3, 3, 0, 32, 513, 32⟩ : fat32_file).file_size ∧
    read_covers testFS 3 0 (min 16 3) = true ∧
    ((fat32_file_read testFS ⟨true, 3, 3, 3, 0, 32, 513, 32⟩ 16).1 = .FAT32_OK ∧
     (fat32_file_read testFS ⟨true, 3, 3, 3, 0, 32, 513, 32⟩ 16).2.1 = min 16 3 ∧
     (fat32_file_read testFS ⟨true, 3, 3, 3, 0, 32, 513, 32⟩ 16).2.2.2.1.position = 0 + min 16 3 ∧
     (fat32_file_read testFS ⟨true, 3, 3, 3, 0, 32, 513, 32⟩ 16).2.2.2.2 = testFS) :=
  ⟨by decide, by decide, by decide,
    by simp [read_covers, testFS, test_boot, FAT32_SECTOR_SIZE],
    (c5_file_read_clamp testFS ⟨true, 3, 3, 3, 0, 32, 513, 32⟩ 16
      (by decide) (by decide)).2 (by decide)
      (by simp [read_covers, testFS, test_boot, FAT32_SECTOR_SIZE])⟩

theorem find_dotdot_loop_fs_eq (fs : FS) (h : Ready fs) :
    ∀ fuel d ec r, find_dotdot_loop fs d ec fuel = some r → r.2 = fs := by
  intro fuel
  induction fuel with
  | zero => intro d ec r hr; simp [find_dotdot_loop] at hr
  | succ n ih =>
    intro d ec r hr
    rcases hd : fat32_dir_read fs d n with _ | ⟨e, ent, d2, fs2⟩
    · simp only [find_dotdot_loop, hd] at hr
      exact Option.noConfusion hr
    · have hfs2 : fs2 = fs := dir_read_fs_eq fs d n h _ hd
      subst hfs2
      simp only [find_dotdot_loop, hd] at hr
      split at hr
      · cases hr; rfl
      · split at hr
        · cases hr; rfl
        · split at hr
          · cases hr; rfl
          · exact ih d2 (ec + 1) r hr

theorem find_name_loop_fs_eq (fs : FS) (h : Ready fs) (target : Nat) :
    ∀ fuel d r, find_name_loop fs d target fuel = some r → r.2 = fs := by
  intro fuel
  induction fuel with
  | zero => intro d r hr; simp [find_name_loop] at hr
  | succ n ih =>
    intro d r hr
    rcases hd : fat32_dir_read fs d n with _ | ⟨e, ent, d2, fs2⟩
    · simp only [find_name_loop, hd] at hr
      exact Option.noConfusion hr
    · have hfs2 : fs2 = fs := dir_read_fs_eq fs d n h _ hd
      subst hfs2
      simp only [find_name_loop, hd] at hr
      split at hr
      · cases hr; rfl
      · split at hr
        · cases hr; rfl
        · exact ih d2 r hr

theorem walk_fs_eq (fs : FS) (h : Ready fs) :
    ∀ levels fuel cluster r, get_current_dir_walk fs cluster fuel levels = some r →
      r.2 = fs := by
  intro levels
  induction levels with
  | zero => intro fuel cluster r hr; cases hr; rfl
  | succ l ih =>
    intro fuel cluster r hr
    unfold get_current_dir_walk at hr
    split at hr
    · cases hr; rfl
    · simp only [] at hr
      rcases hdd : find_dotdot_loop fs
          { is_open := true, start_cluster := cluster, current_cluster := cluster,
            position := 0, last_entry_read := false } 0 fuel with _ | ⟨op, fs1⟩
      · rw [hdd] at hr
        exact Option.noConfusion hr
      · have hfs1 : fs1 = fs := find_dotdot_loop_fs_eq fs h fuel _ 0 _ hdd
        rw [hfs1] at hdd
        rw [hdd] at hr
        rcases op with _ | parent
        · simp only [] at hr
          cases hr; rfl
        · simp only [] at hr
          rcases hnm : find_name_loop fs
              { is_open := true, start_cluster := parent, current_cluster := parent,
                position := 0, last_entry_read := false } cluster fuel with _ | ⟨onm, fs2⟩
          · rw [hnm] at hr
            exact Option.noConfusion hr
          · have hfs2 : fs2 = fs := find_name_loop_fs_eq fs h cluster fuel _ _ hnm
            rw [hfs2] at hnm
            rw [hnm] at hr
            rcases onm with _ | nm
            · simp only [] at hr
              cases hr; rfl
            · simp only [] at hr
              rcases hw : get_current_dir_walk fs parent fuel l with _ | ⟨comps, fs3⟩
              · rw [hw] at hr
                exact Option.noConfusion hr
              · have hfs3 : fs3 = fs := ih fuel parent _ hw
                rw [hfs3] at hw
                rw [hw] at hr
                cases hr; rfl

theorem walk_len :
    ∀ levels (fs : FS) fuel cluster r, get_current_dir_walk fs cluster fuel levels = some r →
      r.1.length ≤ levels := by
  intro levels
  induction levels with
  | zero =>
    intro fs fuel cluster r hr
    cases hr
    simp
  | succ l ih =>
    intro fs fuel cluster r hr
    unfold get_current_dir_walk at hr
    split at hr
    · cases hr; simp
    · simp only [] at hr
      rcases hdd : find_dotdot_loop fs
          { is_open := true, start_cluster := cluster, current_cluster := cluster,
            position := 0, last_entry_read := false } 0 fuel with _ | ⟨op, fs1⟩
      · rw [hdd] at hr
        exact Option.noConfusion hr
      · rw [hdd] at hr
        rcases op with _ | parent
        · simp only [] at hr
          cases hr; simp
        · simp only [] at hr
          rcases hnm : find_name_loop fs1
              { is_open := true, start_cluster := parent, current_cluster := parent,
                position := 0, last_entry_read := false } cluster fuel with _ | ⟨onm, fs2⟩
          · rw [hnm] at hr
            exact Option.noConfusion hr
          · rw [hnm] at hr
            rcases onm with _ | nm
            · simp only [] at hr
              cases hr; simp
            · simp only [] at hr
              rcases hw : get_current_dir_walk fs2 parent fuel l with _ | ⟨comps, fs3⟩
              · rw [hw] at hr
                exact Option.noConfusion hr
              · rw [hw] at hr
                cases hr
                have := ih fs2 fuel parent _ hw
                simpa using Nat.succ_le_succ this

theorem foldl_path_inv (plen : Nat) :
    ∀ (l : List Bytes) (acc : Bytes), acc = [] ∨ acc.headD 0 = 47 →
      (l.foldl (fun a c => strncat_model (strncat_model a [47] plen) c plen) acc) = [] ∨
      (l.foldl (fun a c => strncat_model (strncat_model a [47] plen) c plen) acc).headD 0 = 47 := by
  intro l
  induction l with
  | nil => intro acc h; exact h
  | cons c rest ih =>
    intro acc h
    apply ih
    rcases h with h | h
    · subst h
      simp only []
      rcases Nat.eq_zero_or_pos ((plen + U32 - 1) % U32) with hz | hp
      · left
        simp [strncat_model, hz]
      · right
        have hcap : List.take ((plen + U32 - 1) % U32) ([47] : Bytes) = [47] := by
          rcases Nat.exists_eq_add_of_lt hp with ⟨k, hk⟩
          rw [show (plen + U32 - 1) % U32 = k + 1 by omega]
          simp
        have h1 : strncat_model [] [47] plen = [47] := by
          simp [strncat_model, hcap]
        rw [h1]
        simp [strncat_model]
    · right
      simp only []
      rcases acc with _ | ⟨a, as⟩
      · simp at h
      · simp only [strncat_model, List.cons_append, List.headD_cons] at h ⊢
        exact h

theorem build_path_head (comps : List Bytes) (plen : Nat) :
    build_path comps plen = [] ∨ (build_path comps plen).headD 0 = 47 := by
  unfold build_path
  exact foldl_path_inv plen comps.reverse [] (Or.inl rfl)

/-- Claim C8: fat32_get_current_dir at the root stores exactly "/"; the
upward walk is bounded to 16 levels by construction (whenever it
completes, at most 16 components are collected and the call returns);
and every value the call returns is OK with a path whose first byte is
'/', leaving the state unchanged.  Termination is represented by the
fuelled directory enumerations completing, which the well-formedness of
the volume guarantees. -/
theorem c8_get_current_dir_walk (fs : FS) (plen fuel : Nat)
    (h : Ready fs) (hlen : FAT32_MAX_PATH_LEN ≤ plen) :
    (fs.current_dir_cluster = fs.boot_sector.root_cluster →
      fat32_get_current_dir fs plen fuel = some (.FAT32_OK, [47], fs)) ∧
    (∀ comps, walk_comps fs fuel = some comps →
      comps.length ≤ 16 ∧ (fat32_get_current_dir fs plen fuel).isSome = true) ∧
    (∀ e s gs, fat32_get_current_dir fs plen fuel = some (e, s, gs) →
      e = .FAT32_OK ∧ s.headD 0 = 47 ∧ gs = fs) := by
  have hnl : ¬ plen < FAT32_MAX_PATH_LEN := by omega
  refine ⟨?_, ?_, ?_⟩
  · intro hroot
    unfold fat32_get_current_dir
    rw [if_neg hnl, ready_is_ready fs h]
    simp [hroot]
  · intro comps hcomp
    unfold walk_comps at hcomp
    rcases Option.map_eq_some'.mp hcomp with ⟨r, hw, hproj⟩
    constructor
    · rw [← hproj]
      exact walk_len 16 fs fuel fs.current_dir_cluster r hw
    · unfold fat32_get_current_dir
      rw [if_neg hnl, ready_is_ready fs h]
      simp only []
      by_cases hroot : fs.current_dir_cluster = fs.boot_sector.root_cluster
      · simp [hroot]
      · simp [hroot, hw]
  · intro e s gs hr
    unfold fat32_get_current_dir at hr
    rw [if_neg hnl, ready_is_ready fs h] at hr
    simp only [] at hr
    by_cases hroot : fs.current_dir_cluster = fs.boot_sector.root_cluster
    · rw [if_neg (by simp), if_pos hroot] at hr
      cases hr
      exact ⟨rfl, rfl, rfl⟩
    · rw [if_neg (by simp), if_neg hroot] at hr
      rcases hw : get_current_dir_walk fs fs.current_dir_cluster fuel 16 with _ | ⟨comps, fs2⟩
      · rw [hw] at hr
        exact Option.noConfusion hr
      · have hfs2 : fs2 = fs := walk_fs_eq fs h 16 fuel _ _ hw
        rw [hfs2] at hw
        rw [hw] at hr
        simp only [] at hr
        cases hr
        refine ⟨rfl, ?_, rfl⟩
        rcases build_path_head comps plen with hb | hb
        · simp [hb]
        · split
          · rfl
          · exact hb

/-- Witness for C8 on the test volume: the root yields "/" and the
directory "sub" yields "/sub". -/
theorem c8_get_current_dir_walk_witness :
    Ready testFS ∧ Ready testFS_sub ∧ FAT32_MAX_PATH_LEN ≤ 256 ∧
    fat32_get_current_dir testFS 256 64 = some (.FAT32_OK, [47], testFS) ∧
    walk_comps testFS_sub 64 = some [s2b "sub"] ∧
    ([s2b "sub"].length ≤ 16 ∧ (fat32_get_current_dir testFS_sub 256 64).isSome = true) ∧
    (∀ e s gs, fat32_get_current_dir testFS_sub 256 64 = some (e, s, gs) →
      e = .FAT32_OK ∧ s.headD 0 = 47 ∧ gs = testFS_sub) :=
  ⟨by decide, by decide, by decide,
    (c8_get_current_dir_walk testFS 256 64 (by decide) (by decide)).1 (by decide),
    by decide,
    (c8_get_current_dir_walk testFS_sub 256 64 (by decide) (by decide)).2.1
      [s2b "sub"] (by decide),
    (c8_get_current_dir_walk testFS_sub 256 64 (by decide) (by decide)).2.2⟩
